import Mathlib

/-!
Verification of the document-ocr validation core against its specification.

This file shallowly embeds, in Lean 4, the parts of the Python code base that
the checked properties are about:

* `app/services/validation_service.py` — result aggregation (`_create_summary`)
  and the orchestrator's conversion of validator exceptions into synthetic
  FAILED results;
* `app/services/validators/document_expiry.py` — the expiry validator;
* `app/services/validators/ontario_health_card.py` — the Ontario health-card
  validator with its Luhn checksum;
* `app/services/validators/ontario_dl.py` — the Ontario driver's-licence
  validator;
* `app/services/document_type_detector.py` together with the tables of
  `app/models/document_types.py` — the three-stage document-type detector;
* `app/services/fake_document_detector.py` — the fake/specimen detector.

Modelling conventions:

* Python dictionaries of extracted fields become ordered association lists
  (`Fields`); a missing key and an empty value both read as `""`, matching
  the code's `data.get(k, "") or ""` idiom.
* Python float scores are exact multiples of 0.05, so they are represented as
  integers in hundredths (`0.9 ↦ 90`, `0.15 ↦ 15`, …); every comparison made
  by the code (`> best_score`, `< 0.3`, `>= 0.4`, …) is exact under this
  scaling.  The validation score of `_create_summary`, whose spec is stated
  with real-number division, is kept in `ℚ`.
* `datetime.now()` is passed in explicitly: as an integer timestamp in seconds
  (`now`) where the code subtracts datetimes, and as a calendar date (`today`)
  where the code reads `.year/.month/.day`.  `timedelta.days` is floor
  division by 86400, as in CPython.
* String handling (`.lower()`, `.upper()`, `.strip()`, substring tests,
  `str.join`) is reimplemented character-by-character for ASCII, which covers
  every string the claims quantify over.
-/

/-! ## Small string utilities mirroring the Python built-ins used by the code -/

/-- `p` is a (contiguous) substring of `hay`, as Python's `p in hay`. -/
def StrContains (hay pat : String) : Prop :=
  ∃ l r : List Char, l ++ pat.data ++ r = hay.data

/-- Boolean prefix test on character lists. -/
def isPrefB : List Char → List Char → Bool
  | [], _ => true
  | _ :: _, [] => false
  | a :: ps, b :: hs => a == b && isPrefB ps hs

/-- Boolean substring test on character lists (scan every suffix). -/
def infB (p : List Char) : List Char → Bool
  | [] => isPrefB p []
  | b :: t => isPrefB p (b :: t) || infB p t

/-- Executable form of Python's substring operator `pat in hay`. -/
def strContainsB (hay pat : String) : Bool := infB pat.data hay.data

theorem isPrefB_iff (p h : List Char) : isPrefB p h = true ↔ ∃ r, p ++ r = h := by
  induction p generalizing h with
  | nil => simp [isPrefB]
  | cons a ps ih =>
    cases h with
    | nil => simp [isPrefB]
    | cons b hs =>
      simp only [isPrefB, Bool.and_eq_true, beq_iff_eq, ih]
      constructor
      · rintro ⟨rfl, r, rfl⟩; exact ⟨r, rfl⟩
      · rintro ⟨r, hr⟩
        injection hr with h1 h2
        exact ⟨h1, r, h2⟩

theorem infB_iff (p h : List Char) : infB p h = true ↔ ∃ l r, l ++ p ++ r = h := by
  induction h with
  | nil =>
    simp only [infB, isPrefB_iff]
    constructor
    · rintro ⟨r, hr⟩
      exact ⟨[], r, by simpa using hr⟩
    · rintro ⟨l, r, hr⟩
      have h := (List.append_eq_nil.mp (List.append_eq_nil.mp hr).1).2
      exact ⟨[], by simp [h]⟩
  | cons b t ih =>
    simp only [infB, Bool.or_eq_true, isPrefB_iff, ih]
    constructor
    · rintro (⟨r, hr⟩ | ⟨l, r, hr⟩)
      · exact ⟨[], r, by simpa using hr⟩
      · exact ⟨b :: l, r, by simp [hr]⟩
    · rintro ⟨l, r, hr⟩
      cases l with
      | nil => exact Or.inl ⟨r, by simpa using hr⟩
      | cons x xs =>
        right
        injection hr with h1 h2
        exact ⟨xs, r, h2⟩

theorem strContainsB_iff (hay pat : String) :
    strContainsB hay pat = true ↔ StrContains hay pat := by
  unfold strContainsB StrContains
  exact infB_iff pat.data hay.data

/-- If `pat` occurs in `t`, it occurs in `s ++ t`. -/
theorem StrContains.append_left {t pat : String} (s : String)
    (h : StrContains t pat) : StrContains (s ++ t) pat := by
  rcases h with ⟨l, r, hr⟩
  exact ⟨s.data ++ l, r, by simp [String.data_append, ← hr, List.append_assoc]⟩

/-- If `pat` occurs in `s`, it occurs in `s ++ t`. -/
theorem StrContains.append_right {s pat : String} (t : String)
    (h : StrContains s pat) : StrContains (s ++ t) pat := by
  rcases h with ⟨l, r, hr⟩
  exact ⟨l, r ++ t.data, by simp [String.data_append, ← hr, List.append_assoc]⟩

/-- Python `str.lower()` (ASCII range). -/
def strLower (s : String) : String := ⟨s.data.map Char.toLower⟩

/-- Python `str.upper()` (ASCII range). -/
def strUpper (s : String) : String := ⟨s.data.map Char.toUpper⟩

/-- Python `\s` on ASCII input: space, tab, newline, CR, FF, VT. -/
def pyIsSpace (c : Char) : Bool :=
  c == ' ' || c == '\t' || c == '\n' || c == '\r' || c == '\x0b' || c == '\x0c'

/-- Python `str.strip()`. -/
def strStrip (s : String) : String :=
  ⟨((s.data.dropWhile pyIsSpace).reverse.dropWhile pyIsSpace).reverse⟩

/-- Python `re.sub(r"[\s\-]", "", s)`: drop whitespace and hyphens. -/
def dropSpaceHyphen (s : String) : String :=
  ⟨s.data.filter (fun c => !(pyIsSpace c || c == '-'))⟩

/-- Python `sep.join(parts)`. -/
def joinSep (sep : String) : List String → String
  | [] => ""
  | [x] => x
  | x :: y :: t => x ++ sep ++ joinSep sep (y :: t)

/-- The head of a joined list is a prefix, so any substring of it occurs
in the join. -/
theorem StrContains.joinSep_head {x pat : String} (sep : String) (t : List String)
    (h : StrContains x pat) : StrContains (joinSep sep (x :: t)) pat := by
  cases t with
  | nil => simpa [joinSep] using h
  | cons y ys => simpa [joinSep, String.append_assoc] using h.append_right _

/-- Digits of a string as numbers, `none` when a non-digit occurs. -/
def digitVals : List Char → Option (List ℕ)
  | [] => some []
  | c :: cs =>
    if c.isDigit then (digitVals cs).map (fun l => (c.toNat - '0'.toNat) :: l)
    else none

/-- Python `str.isdigit()` for ASCII strings: nonempty and all digits. -/
def pyIsDigitStr (s : String) : Bool := !s.data.isEmpty && s.data.all Char.isDigit

/-- Value of a digit string (most significant first); used for `int(s)`. -/
def digitsToNat : List Char → ℕ → ℕ
  | [], acc => acc
  | c :: cs, acc => digitsToNat cs (acc * 10 + (c.toNat - '0'.toNat))

/-- Python `int(s)` for a plain ASCII digit string, else `none`. -/
def pyParseNat (s : String) : Option ℕ :=
  if pyIsDigitStr s then some (digitsToNat s.data 0) else none

/-! ## Regex building blocks

The code only uses anchored, backtracking-free patterns (character classes
with fixed or bounded repetition, optional literals, and one two-way
alternation), so each pattern is embedded as a total scanner on `List Char`.
-/

/-- Consume exactly `n` characters of class `p`. -/
def chompClass (p : Char → Bool) : ℕ → List Char → Option (List Char)
  | 0, cs => some cs
  | _ + 1, [] => none
  | n + 1, c :: cs => if p c then chompClass p n cs else none

/-- Consume a mandatory literal character. -/
def chompLit (c : Char) : List Char → Option (List Char)
  | [] => none
  | x :: cs => if x == c then some cs else none

/-- Consume an optional literal character (`c?`). -/
def optLit (c : Char) : List Char → List Char
  | [] => []
  | x :: cs => if x == c then cs else x :: cs

/-- `p{lo,hi}$`: the whole remaining input is `lo`–`hi` characters of class `p`. -/
def tailClass (p : Char → Bool) (lo hi : ℕ) (cs : List Char) : Bool :=
  cs.all p && decide (lo ≤ cs.length) && decide (cs.length ≤ hi)

/-- `[A-Z0-9]` (the code first uppercases its input). -/
def isUpperDigit (c : Char) : Bool := c.isUpper || c.isDigit

/-! ## Data model (`app/models/responses.py`) -/

/-- `ValidationStatus` from `app/models/responses.py`. -/
inductive ValidationStatus
  | passed | failed | warning | skipped
deriving DecidableEq, Repr

/-- Values stored in a validator's `details` dictionary. -/
inductive DetailVal
  | s (v : String)
  | i (v : ℤ)
  | b (v : Bool)
  | q (v : ℚ)
  | strs (v : List String)
deriving DecidableEq, Repr

/-- `ValidatorResult` from `app/models/responses.py`.  `execution_time_ms`
is wall-clock measurement (I/O) and is not modelled. -/
structure ValidatorResult where
  validator_name : String
  status : ValidationStatus
  message : String
  details : List (String × DetailVal) := []
deriving DecidableEq, Repr

/-- `ValidationSummary` from `app/models/responses.py`; the score is kept
as an exact rational. -/
structure ValidationSummary where
  overall_status : ValidationStatus
  validation_score : ℚ
  total_checks : ℕ
  passed_checks : ℕ
  failed_checks : ℕ
  warning_checks : ℕ
  skipped_checks : ℕ
deriving DecidableEq, Repr

/-- Round half to even, as CPython's `round` on an exactly representable
value. -/
def roundHalfEven (q : ℚ) : ℤ :=
  if q - ⌊q⌋ < 1 / 2 then ⌊q⌋
  else if 1 / 2 < q - ⌊q⌋ then ⌊q⌋ + 1
  else if ⌊q⌋ % 2 = 0 then ⌊q⌋ else ⌊q⌋ + 1

/-- Python `round(q, 2)`. -/
def pyRound2 (q : ℚ) : ℚ := (roundHalfEven (q * 100) : ℚ) / 100

/-! ## Orchestrator aggregation (`app/services/validation_service.py`) -/

/-- `ValidationService._create_summary` (`validation_service.py`, lines
298-336): count statuses, score `(passed + warnings*0.5) / (total-skipped)`
(0 when every check was skipped) rounded to 2 decimals, and severity-ordered
overall status. -/
def create_summary (results : List ValidatorResult) : ValidationSummary :=
  let passed := results.countP (fun r => r.status == .passed)
  let failed := results.countP (fun r => r.status == .failed)
  let warnings := results.countP (fun r => r.status == .warning)
  let skipped := results.countP (fun r => r.status == .skipped)
  let total := results.length
  let active_checks := total - skipped
  let score : ℚ :=
    if 0 < active_checks then ((passed : ℚ) + (warnings : ℚ) * (5 / 10)) / (active_checks : ℚ)
    else 0
  let overall_status : ValidationStatus :=
    if 0 < failed then .failed
    else if 0 < warnings then .warning
    else if 0 < passed then .passed
    else .skipped
  { overall_status := overall_status
    validation_score := pyRound2 score
    total_checks := total
    passed_checks := passed
    failed_checks := failed
    warning_checks := warnings
    skipped_checks := skipped }

/-- A Python exception as seen by the orchestrator: its class name
(`type(e).__name__`) and its text (`str(e)`). -/
structure PyExn where
  typeName : String
  msg : String
deriving DecidableEq, Repr

/-- The outcome the orchestrator observes for one submitted validator:
either its `ValidatorResult` or the exception it raised. -/
abbrev RunOutcome := Except PyExn ValidatorResult

/-- `ValidationService.validate_document`, result-processing loop
(`validation_service.py`, lines 242-266): an exception becomes a synthetic
FAILED result named after the validator; a normal result passes through. -/
def process_result (validator_name : String) : RunOutcome → ValidatorResult
  | .ok r => r
  | .error e =>
      { validator_name := validator_name
        status := .failed
        message := "Validator error: " ++ e.msg
        details := [("error_type", .s e.typeName)] }

/-- The whole batch after the processing loop: one processed result per
submitted validator, in submission order. -/
def process_results (batch : List (String × RunOutcome)) : List ValidatorResult :=
  batch.map (fun p => process_result p.1 p.2)

/-! ## Counting lemmas for the summary -/

theorem countP_status_pos (results : List ValidatorResult) (st : ValidationStatus) :
    0 < results.countP (fun r => r.status == st) ↔ ∃ r ∈ results, r.status = st := by
  rw [List.countP_pos_iff]
  constructor
  · rintro ⟨r, hr, h⟩
    exact ⟨r, hr, by simpa using h⟩
  · rintro ⟨r, hr, h⟩
    exact ⟨r, hr, by simp [h]⟩

theorem countP_status_eq_zero (results : List ValidatorResult) (st : ValidationStatus) :
    results.countP (fun r => r.status == st) = 0 ↔ ∀ r ∈ results, r.status ≠ st := by
  rw [List.countP_eq_zero]
  constructor
  · intro h r hr hst
    exact absurd (h r hr) (by simp [hst])
  · intro h r hr
    simpa using h r hr

/-- Every result has exactly one status, so the four counts partition the list. -/
theorem status_count_partition (results : List ValidatorResult) :
    results.countP (fun r => r.status == .passed) +
      results.countP (fun r => r.status == .failed) +
      results.countP (fun r => r.status == .warning) +
      results.countP (fun r => r.status == .skipped) = results.length := by
  induction results with
  | nil => rfl
  | cons r t ih =>
    cases hs : r.status <;> simp +decide [List.countP_cons, hs] <;> omega

theorem roundHalfEven_nonneg {x : ℚ} (h : 0 ≤ x) : 0 ≤ roundHalfEven x := by
  have hf : 0 ≤ ⌊x⌋ := Int.floor_nonneg.mpr h
  unfold roundHalfEven
  split_ifs <;> omega

theorem roundHalfEven_le {x : ℚ} {n : ℤ} (h : x ≤ n) : roundHalfEven x ≤ n := by
  have hf : ⌊x⌋ ≤ n := by
    have := Int.floor_le_floor h
    rwa [Int.floor_intCast] at this
  have hx : (⌊x⌋ : ℚ) ≤ x := Int.floor_le x
  have step : (1 / 2 : ℚ) ≤ x - ⌊x⌋ → ⌊x⌋ + 1 ≤ n := by
    intro hr
    have h1 : (⌊x⌋ : ℚ) < n := by linarith
    have h2 : ⌊x⌋ < n := by exact_mod_cast h1
    omega
  unfold roundHalfEven
  split_ifs with h1 h2 h3
  · exact hf
  · exact step (le_of_lt h2)
  · exact hf
  · exact step (by linarith [not_lt.mp h1])

theorem pyRound2_nonneg {q : ℚ} (h : 0 ≤ q) : 0 ≤ pyRound2 q := by
  unfold pyRound2
  have := roundHalfEven_nonneg (x := q * 100) (by positivity)
  positivity

theorem pyRound2_le_one {q : ℚ} (h : q ≤ 1) : pyRound2 q ≤ 1 := by
  unfold pyRound2
  have h100 : q * 100 ≤ ((100 : ℤ) : ℚ) := by push_cast; linarith
  have := roundHalfEven_le h100
  rw [div_le_one (by norm_num)]
  exact_mod_cast this

/-! ## C1: severity order of the overall status -/

/-- C1.  For every list of `ValidatorResult`, the `ValidationSummary` computed
by the orchestrator has `overall_status = FAILED` if any result is FAILED;
otherwise WARNING if any result is WARNING; otherwise PASSED if any result is
PASSED; otherwise SKIPPED (`_create_summary`, lines 318-326). -/
theorem overall_status_severity_order (results : List ValidatorResult) :
    ((∃ r ∈ results, r.status = .failed) →
      (create_summary results).overall_status = .failed) ∧
    ((∀ r ∈ results, r.status ≠ .failed) → (∃ r ∈ results, r.status = .warning) →
      (create_summary results).overall_status = .warning) ∧
    ((∀ r ∈ results, r.status ≠ .failed) → (∀ r ∈ results, r.status ≠ .warning) →
      (∃ r ∈ results, r.status = .passed) →
      (create_summary results).overall_status = .passed) ∧
    ((∀ r ∈ results, r.status ≠ .failed) → (∀ r ∈ results, r.status ≠ .warning) →
      (∀ r ∈ results, r.status ≠ .passed) →
      (create_summary results).overall_status = .skipped) := by
  refine ⟨?_, ?_, ?_, ?_⟩
  · intro h
    simp only [create_summary]
    rw [if_pos ((countP_status_pos results .failed).mpr h)]
  · intro hf h
    simp only [create_summary]
    rw [if_neg (by simp [(countP_status_eq_zero results .failed).mpr hf]),
      if_pos ((countP_status_pos results .warning).mpr h)]
  · intro hf hw h
    simp only [create_summary]
    rw [if_neg (by simp [(countP_status_eq_zero results .failed).mpr hf]),
      if_neg (by simp [(countP_status_eq_zero results .warning).mpr hw]),
      if_pos ((countP_status_pos results .passed).mpr h)]
  · intro hf hw hp
    simp only [create_summary]
    rw [if_neg (by simp [(countP_status_eq_zero results .failed).mpr hf]),
      if_neg (by simp [(countP_status_eq_zero results .warning).mpr hw]),
      if_neg (by simp [(countP_status_eq_zero results .passed).mpr hp])]

/-- Concrete instantiation of `overall_status_severity_order`: a batch with a
FAILED and a PASSED result aggregates to FAILED. -/
theorem overall_status_severity_order_witness :
    (create_summary
      [{ validator_name := "document_expiry", status := .failed, message := "expired" },
       { validator_name := "age_validation", status := .passed, message := "ok" }]).overall_status =
      ValidationStatus.failed :=
  (overall_status_severity_order _).1
    ⟨{ validator_name := "document_expiry", status := .failed, message := "expired" },
      by simp, rfl⟩

/-! ## C2: the validation score -/

theorem exists_nonskipped_iff (results : List ValidatorResult) :
    (∃ r ∈ results, r.status ≠ .skipped) ↔
      results.countP (fun r => r.status == .skipped) < results.length := by
  have hpart := status_count_partition results
  constructor
  · rintro ⟨r, hr, h⟩
    have hlt : 0 < results.countP (fun r => r.status == .passed) +
        results.countP (fun r => r.status == .failed) +
        results.countP (fun r => r.status == .warning) := by
      cases hs : r.status
      · have := (countP_status_pos results .passed).mpr ⟨r, hr, hs⟩
        omega
      · have := (countP_status_pos results .failed).mpr ⟨r, hr, hs⟩
        omega
      · have := (countP_status_pos results .warning).mpr ⟨r, hr, hs⟩
        omega
      · exact absurd hs h
    omega
  · intro h
    by_contra hno
    push_neg at hno
    have hall : results.countP (fun r => r.status == .skipped) = results.length :=
      List.countP_eq_length.mpr (fun r hr => by simp [hno r hr])
    omega

/-- C2 (amended).  The stored `validation_score` is the claim's ratio
`(passed + 0.5*warnings) / (total - skipped)` **rounded to two decimal
places** (the code applies `round(score, 2)`); it is `0` when every check
was skipped, always lies in `[0, 1]`, and equals `1.0` whenever at least one
check is non-skipped and all non-skipped checks PASSED. -/
theorem validation_score_rounded_bounds (results : List ValidatorResult) :
    ((∃ r ∈ results, r.status ≠ .skipped) →
      (create_summary results).validation_score =
        pyRound2 (((results.countP (fun r => r.status == .passed) : ℚ) +
          (results.countP (fun r => r.status == .warning) : ℚ) / 2) /
          ((results.length : ℚ) -
            (results.countP (fun r => r.status == .skipped) : ℚ)))) ∧
    ((∀ r ∈ results, r.status = .skipped) →
      (create_summary results).validation_score = 0) ∧
    0 ≤ (create_summary results).validation_score ∧
    (create_summary results).validation_score ≤ 1 ∧
    (((∃ r ∈ results, r.status ≠ .skipped) ∧
        ∀ r ∈ results, r.status ≠ .skipped → r.status = .passed) →
      (create_summary results).validation_score = 1) := by
  have hskip_le := List.countP_le_length
    (p := fun r : ValidatorResult => r.status == ValidationStatus.skipped) (l := results)
  have hpart := status_count_partition results
  refine ⟨?_, ?_, ?_, ?_, ?_⟩
  · intro h
    have hact : 0 < results.length - results.countP (fun r => r.status == .skipped) := by
      have := (exists_nonskipped_iff results).mp h
      omega
    simp only [create_summary]
    rw [if_pos hact]
    congr 1
    rw [Nat.cast_sub hskip_le]
    ring_nf
  · intro h
    have hall : results.countP (fun r => r.status == .skipped) = results.length := by
      exact List.countP_eq_length.mpr (fun r hr => by simp [h r hr])
    simp only [create_summary]
    rw [if_neg (by omega)]
    norm_num [pyRound2, roundHalfEven]
  · simp only [create_summary]
    split_ifs with hact
    · refine pyRound2_nonneg ?_
      have hden : (0 : ℚ) < ((results.length - results.countP
          (fun r => r.status == ValidationStatus.skipped) : ℕ) : ℚ) := by
        exact_mod_cast hact
      positivity
    · norm_num [pyRound2, roundHalfEven]
  · simp only [create_summary]
    split_ifs with hact
    · refine pyRound2_le_one ?_
      have hden : (0 : ℚ) < ((results.length - results.countP
          (fun r => r.status == ValidationStatus.skipped) : ℕ) : ℚ) := by
        exact_mod_cast hact
      rw [div_le_one hden]
      have hnum : results.countP (fun r => r.status == ValidationStatus.passed) +
          results.countP (fun r => r.status == ValidationStatus.warning) ≤
          results.length - results.countP (fun r => r.status == ValidationStatus.skipped) := by
        omega
      have : ((results.countP (fun r => r.status == ValidationStatus.passed) : ℚ) +
          (results.countP (fun r => r.status == ValidationStatus.warning) : ℚ)) ≤
          ((results.length - results.countP
            (fun r => r.status == ValidationStatus.skipped) : ℕ) : ℚ) := by
        exact_mod_cast Nat.cast_le.mpr hnum
      nlinarith [Nat.cast_nonneg (α := ℚ)
        (results.countP (fun r => r.status == ValidationStatus.warning))]
    · norm_num [pyRound2, roundHalfEven]
  · rintro ⟨hex, hall⟩
    have hfail : results.countP (fun r => r.status == .failed) = 0 :=
      (countP_status_eq_zero results .failed).mpr (fun r hr hst => by
        have := hall r hr (by simp [hst])
        simp [hst] at this)
    have hwarn : results.countP (fun r => r.status == .warning) = 0 :=
      (countP_status_eq_zero results .warning).mpr (fun r hr hst => by
        have := hall r hr (by simp [hst])
        simp [hst] at this)
    have hact : 0 < results.length - results.countP (fun r => r.status == .skipped) := by
      have := (exists_nonskipped_iff results).mp hex
      omega
    have hp : results.countP (fun r => r.status == .passed) =
        results.length - results.countP (fun r => r.status == .skipped) := by
      omega
    simp only [create_summary]
    rw [if_pos hact]
    rw [hwarn, hp]
    have hden : (0 : ℚ) < ((results.length - results.countP
        (fun r => r.status == ValidationStatus.skipped) : ℕ) : ℚ) := by
      exact_mod_cast hact
    rw [show ((results.length - results.countP
        (fun r => r.status == ValidationStatus.skipped) : ℕ) : ℚ) +
        (0 : ℕ) * ((5 : ℚ) / 10) = ((results.length - results.countP
        (fun r => r.status == ValidationStatus.skipped) : ℕ) : ℚ) by push_cast; ring]
    rw [div_self (ne_of_gt hden)]
    norm_num [pyRound2, roundHalfEven]

/-- The batch exhibiting the rounding: one PASSED check and two FAILED ones. -/
def scoreCounterexampleResults : List ValidatorResult :=
  [{ validator_name := "age_validation", status := .passed, message := "age ok" },
   { validator_name := "document_expiry", status := .failed, message := "expired" },
   { validator_name := "ontario_drivers_license", status := .failed, message := "bad format" }]

/-- C2 counterexample: for one PASSED and two FAILED checks the claimed exact
ratio is `1/3`, but the code stores `round(1/3, 2) = 0.33`. -/
theorem validation_score_not_exact_ratio :
    (create_summary scoreCounterexampleResults).validation_score ≠
      ((scoreCounterexampleResults.countP (fun r => r.status == .passed) : ℚ) +
        (scoreCounterexampleResults.countP (fun r => r.status == .warning) : ℚ) / 2) /
        ((scoreCounterexampleResults.length : ℚ) -
          (scoreCounterexampleResults.countP (fun r => r.status == .skipped) : ℚ)) := by
  simp +decide only [create_summary, scoreCounterexampleResults, List.countP_cons,
    List.countP_nil, List.length_cons, List.length_nil]
  norm_num [pyRound2, roundHalfEven]

/-- Concrete instantiation of `validation_score_rounded_bounds`: for the
one-PASSED/two-FAILED batch the stored score is `round(1/3, 2)`. -/
theorem validation_score_rounded_bounds_witness :
    (create_summary scoreCounterexampleResults).validation_score =
      pyRound2 (((scoreCounterexampleResults.countP (fun r => r.status == .passed) : ℚ) +
        (scoreCounterexampleResults.countP (fun r => r.status == .warning) : ℚ) / 2) /
        ((scoreCounterexampleResults.length : ℚ) -
          (scoreCounterexampleResults.countP (fun r => r.status == .skipped) : ℚ))) :=
  (validation_score_rounded_bounds scoreCounterexampleResults).1
    ⟨{ validator_name := "age_validation", status := .passed, message := "age ok" },
      by simp [scoreCounterexampleResults], by decide⟩

/-! ## C3: validator faults are isolated -/

theorem process_results_length (batch : List (String × RunOutcome)) :
    (process_results batch).length = batch.length := by
  simp [process_results]

/-- C3.  In every validator batch, a validator that raises an internal
exception yields a synthetic FAILED `ValidatorResult` carrying that
validator's name and the error text, every sibling validator's result is
still produced at its own position, and the `ValidationSummary` counts all
validators of the batch (`validate_document`, lines 228-266). -/
theorem validator_faults_isolated (batch : List (String × RunOutcome)) :
    (process_results batch).length = batch.length ∧
    (create_summary (process_results batch)).total_checks = batch.length ∧
    ∀ i : Fin batch.length,
      (∀ e : PyExn, (batch.get i).2 = .error e →
        (process_results batch).get ⟨i.1, by simp [process_results, i.2]⟩ =
          { validator_name := (batch.get i).1
            status := .failed
            message := "Validator error: " ++ e.msg
            details := [("error_type", .s e.typeName)] }) ∧
      (∀ r : ValidatorResult, (batch.get i).2 = .ok r →
        (process_results batch).get ⟨i.1, by simp [process_results, i.2]⟩ = r) := by
  refine ⟨process_results_length batch, ?_, ?_⟩
  · simp [create_summary, process_results]
  · intro i
    constructor
    · intro e he
      have hget : (process_results batch).get ⟨i.1, by simp [process_results, i.2]⟩ =
          process_result (batch.get i).1 (batch.get i).2 := by
        simp [process_results]
      rw [hget, he]
      rfl
    · intro r hr
      have hget : (process_results batch).get ⟨i.1, by simp [process_results, i.2]⟩ =
          process_result (batch.get i).1 (batch.get i).2 := by
        simp [process_results]
      rw [hget, hr]
      rfl

/-- The two-validator batch used to instantiate `validator_faults_isolated`:
the first validator raised `ValueError("unexpected type")`, the second
completed normally. -/
def expiryOkResult : ValidatorResult :=
  { validator_name := "document_expiry"
    status := .passed
    message := "Document valid for 120 days" }

def faultBatch : List (String × RunOutcome) :=
  [("data_consistency", .error { typeName := "ValueError", msg := "unexpected type" }),
   ("document_expiry", .ok expiryOkResult)]

/-- Concrete instantiation of `validator_faults_isolated`: the faulting
validator becomes a synthetic FAILED result, its sibling's result survives,
and the summary counts both. -/
theorem validator_faults_isolated_witness :
    (process_results faultBatch).get ⟨0, by decide⟩ =
      { validator_name := "data_consistency"
        status := .failed
        message := "Validator error: " ++ "unexpected type"
        details := [("error_type", .s "ValueError")] } ∧
    (process_results faultBatch).get ⟨1, by decide⟩ = expiryOkResult ∧
    (create_summary (process_results faultBatch)).total_checks = 2 := by
  refine ⟨?_, ?_, ?_⟩
  · exact ((validator_faults_isolated faultBatch).2.2 ⟨0, by decide⟩).1 _ (by rfl)
  · exact ((validator_faults_isolated faultBatch).2.2 ⟨1, by decide⟩).2 _ (by rfl)
  · exact (validator_faults_isolated faultBatch).2.1

/-! ## Extracted fields and shared validator helpers
(`app/services/validators/base.py`) -/

/-- The flat mapping of extracted fields; a missing key reads as `""`,
mirroring `document_data.get(k, "") or ""`. -/
abbrev Fields := List (String × String)

/-- Python `document_data.get(k, "") or ""`. -/
def fieldGet (data : Fields) (k : String) : String := (data.lookup k).getD ""

/-- `BaseValidator._skip_if_missing`: a SKIPPED result when any required
field is absent or empty, else `none`. -/
def skip_if_missing (name : String) (document_data : Fields)
    (required_fields : List String) : Option ValidatorResult :=
  let missing := required_fields.filter (fun f => fieldGet document_data f == "")
  if missing.isEmpty then none
  else some
    { validator_name := name
      status := .skipped
      message := "Required fields missing: " ++ joinSep ", " missing
      details := [("missing_fields", .strs missing)] }

/-- A parsed calendar date (the `datetime` produced by
`BaseValidator._parse_date`, always at midnight). -/
structure YMD where
  year : ℕ
  month : ℕ
  day : ℕ
deriving DecidableEq, Repr

def isLeapYear (y : ℕ) : Bool :=
  (y % 4 == 0 && y % 100 != 0) || y % 400 == 0

def daysInMonth (y m : ℕ) : ℕ :=
  if m == 2 then (if isLeapYear y then 29 else 28)
  else if m == 4 || m == 6 || m == 9 || m == 11 then 30
  else 31

/-- Split a character list on a separator character. -/
def splitOnCh (c : Char) : List Char → List (List Char)
  | [] => [[]]
  | x :: xs =>
    let r := splitOnCh c xs
    if x == c then [] :: r
    else
      match r with
      | [] => [[x]]
      | h :: t => (x :: h) :: t

/-- `BaseValidator._parse_date`, restricted to its first format `"%Y-%m-%d"`
(tried before all others).  Every date string the claims mention is in this
format; a string only matched by one of the later strptime formats is
conservatively mapped to `none`, which shrinks — but never changes — the
set of inputs the theorems below speak about. -/
def parse_date (s : String) : Option YMD :=
  match splitOnCh '-' (strStrip s).data with
  | [y, m, d] =>
    if y.length == 4 && decide (1 ≤ m.length) && decide (m.length ≤ 2) &&
        decide (1 ≤ d.length) && decide (d.length ≤ 2) &&
        y.all Char.isDigit && m.all Char.isDigit && d.all Char.isDigit then
      let yv := digitsToNat y 0
      let mv := digitsToNat m 0
      let dv := digitsToNat d 0
      if decide (1 ≤ mv) && decide (mv ≤ 12) && decide (1 ≤ dv) &&
          decide (dv ≤ daysInMonth yv mv) then
        some ⟨yv, mv, dv⟩
      else none
    else none
  | _ => none

/-- Civil date to days since 1970-01-01 (Howard Hinnant's `days_from_civil`,
the arithmetic CPython's `date.toordinal` is equivalent to). -/
def daysFromCivil (year : ℤ) (month day : ℤ) : ℤ :=
  let y := if month ≤ 2 then year - 1 else year
  let era := y / 400
  let yoe := y - era * 400
  let mp := (month + 9) % 12
  let doy := (153 * mp + 2) / 5 + day - 1
  let doe := yoe * 365 + yoe / 4 - yoe / 100 + doy
  era * 146097 + doe - 719468

/-- The `datetime` value of a parsed date, as seconds since the epoch
(midnight, matching `strptime` output). -/
def tsOfYMD (d : YMD) : ℤ := 86400 * daysFromCivil d.year d.month d.day

/-- `str(n)` zero-padded to two digits, for `strftime("%m"/"%d")`. -/
def pad2 (n : ℕ) : String := if n < 10 then "0" ++ toString n else toString n

/-- `strftime("%Y-%m-%d")`. -/
def formatYMD (d : YMD) : String :=
  toString d.year ++ "-" ++ pad2 d.month ++ "-" ++ pad2 d.day

/-- `timedelta.days` of `a - b` for two timestamps in seconds: CPython
normalizes with floor division. -/
def timedeltaDays (a b : ℤ) : ℤ := Int.fdiv (a - b) 86400

/-! ## The document-expiry validator
(`app/services/validators/document_expiry.py`) -/

/-- `DocumentExpiryValidator.validate` (lines 13-64), with `datetime.now()`
passed in as the timestamp `now`. -/
def DocumentExpiryValidator.validate (now : ℤ) (document_data : Fields) :
    ValidatorResult :=
  match skip_if_missing "document_expiry" document_data ["expiry_date"] with
  | some skip_result => skip_result
  | none =>
    match parse_date (fieldGet document_data "expiry_date") with
    | none =>
      { validator_name := "document_expiry"
        status := .warning
        message := "Could not parse expiry date format"
        details := [("raw_expiry_date", .s (fieldGet document_data "expiry_date"))] }
    | some expiry_date =>
      let days_until_expiry := timedeltaDays (tsOfYMD expiry_date) now
      if days_until_expiry < 0 then
        { validator_name := "document_expiry"
          status := .failed
          message := "Document expired " ++ toString (-days_until_expiry) ++ " days ago"
          details := [("expiry_date", .s (formatYMD expiry_date)),
            ("days_expired", .i (-days_until_expiry))] }
      else if days_until_expiry < 30 then
        { validator_name := "document_expiry"
          status := .warning
          message := "Document expires in " ++ toString days_until_expiry ++ " days"
          details := [("expiry_date", .s (formatYMD expiry_date)),
            ("days_until_expiry", .i days_until_expiry)] }
      else
        { validator_name := "document_expiry"
          status := .passed
          message := "Document valid for " ++ toString days_until_expiry ++ " days"
          details := [("expiry_date", .s (formatYMD expiry_date)),
            ("days_until_expiry", .i days_until_expiry)] }

theorem timedeltaDays_eq (a b : ℤ) : timedeltaDays a b = (a - b) / 86400 :=
  Int.fdiv_eq_ediv _ (by norm_num)

theorem timedeltaDays_neg_iff (a b : ℤ) : timedeltaDays a b < 0 ↔ a < b := by
  rw [timedeltaDays_eq]
  constructor
  · intro h
    by_contra hab
    push_neg at hab
    have := Int.ediv_nonneg (by omega : (0:ℤ) ≤ a - b) (by norm_num : (0:ℤ) ≤ 86400)
    omega
  · intro h
    exact Int.ediv_neg' (by omega) (by norm_num)

theorem timedeltaDays_lt_iff (a b c : ℤ) :
    timedeltaDays a b < c ↔ a - b < c * 86400 := by
  rw [timedeltaDays_eq]
  exact Int.ediv_lt_iff_lt_mul (by norm_num)

/-- C5.  For every input with a parseable `expiry_date`: expiry before `now`
gives FAILED carrying the days-expired count, expiry within 30 days of `now`
gives WARNING, and any later expiry gives PASSED; an expiry exactly 10 days
in the past yields FAILED with `days_expired = 10`
(`document_expiry.py`, lines 21-54). -/
theorem document_expiry_thresholds (document_data : Fields) (now : ℤ) (exp : YMD)
    (hparse : parse_date (fieldGet document_data "expiry_date") = some exp) :
    (tsOfYMD exp < now →
      (DocumentExpiryValidator.validate now document_data).status = .failed ∧
      (DocumentExpiryValidator.validate now document_data).details.lookup "days_expired" =
        some (.i (-(timedeltaDays (tsOfYMD exp) now)))) ∧
    (now ≤ tsOfYMD exp → tsOfYMD exp - now < 30 * 86400 →
      (DocumentExpiryValidator.validate now document_data).status = .warning) ∧
    (30 * 86400 ≤ tsOfYMD exp - now →
      (DocumentExpiryValidator.validate now document_data).status = .passed) ∧
    (tsOfYMD exp = now - 10 * 86400 →
      (DocumentExpiryValidator.validate now document_data).status = .failed ∧
      (DocumentExpiryValidator.validate now document_data).details.lookup "days_expired" =
        some (.i 10)) := by
  have hne : (fieldGet document_data "expiry_date" == "") = false := by
    rw [beq_eq_false_iff_ne]
    intro h
    rw [h, (by decide : parse_date "" = none)] at hparse
    exact Option.noConfusion hparse
  have hskip : skip_if_missing "document_expiry" document_data ["expiry_date"] = none := by
    simp [skip_if_missing, hne]
  have hval : DocumentExpiryValidator.validate now document_data =
      (if timedeltaDays (tsOfYMD exp) now < 0 then
        { validator_name := "document_expiry"
          status := .failed
          message := "Document expired " ++ toString (-(timedeltaDays (tsOfYMD exp) now)) ++
            " days ago"
          details := [("expiry_date", .s (formatYMD exp)),
            ("days_expired", .i (-(timedeltaDays (tsOfYMD exp) now)))] }
      else if timedeltaDays (tsOfYMD exp) now < 30 then
        { validator_name := "document_expiry"
          status := .warning
          message := "Document expires in " ++ toString (timedeltaDays (tsOfYMD exp) now) ++
            " days"
          details := [("expiry_date", .s (formatYMD exp)),
            ("days_until_expiry", .i (timedeltaDays (tsOfYMD exp) now))] }
      else
        { validator_name := "document_expiry"
          status := .passed
          message := "Document valid for " ++ toString (timedeltaDays (tsOfYMD exp) now) ++
            " days"
          details := [("expiry_date", .s (formatYMD exp)),
            ("days_until_expiry", .i (timedeltaDays (tsOfYMD exp) now))] }) := by
    rw [DocumentExpiryValidator.validate, hskip, hparse]
  refine ⟨?_, ?_, ?_, ?_⟩
  · intro hlt
    have hd : timedeltaDays (tsOfYMD exp) now < 0 := (timedeltaDays_neg_iff _ _).mpr hlt
    rw [hval, if_pos hd]
    exact ⟨rfl, by simp [List.lookup]⟩
  · intro hge hlt
    have hd0 : ¬ timedeltaDays (tsOfYMD exp) now < 0 := by
      rw [timedeltaDays_neg_iff]
      omega
    have hd30 : timedeltaDays (tsOfYMD exp) now < 30 := by
      rw [timedeltaDays_lt_iff]
      omega
    rw [hval, if_neg hd0, if_pos hd30]
  · intro hge
    have hd0 : ¬ timedeltaDays (tsOfYMD exp) now < 0 := by
      rw [timedeltaDays_neg_iff]
      omega
    have hd30 : ¬ timedeltaDays (tsOfYMD exp) now < 30 := by
      rw [timedeltaDays_lt_iff]
      omega
    rw [hval, if_neg hd0, if_neg hd30]
  · intro h10
    have hd : timedeltaDays (tsOfYMD exp) now = -10 := by
      unfold timedeltaDays
      rw [h10]
      have harg : now - 10 * 86400 - now = -864000 := by ring
      rw [harg]
      decide
    rw [hval, hd]
    exact ⟨rfl, rfl⟩

/-- Concrete instantiation of `document_expiry_thresholds`: with `now` at
midnight 2026-10-12 and `expiry_date = "2026-10-02"` (exactly 10 days
earlier), the validator FAILs with `days_expired = 10`. -/
theorem document_expiry_thresholds_witness :
    (DocumentExpiryValidator.validate (tsOfYMD ⟨2026, 10, 12⟩)
      [("expiry_date", "2026-10-02")]).status = .failed ∧
    (DocumentExpiryValidator.validate (tsOfYMD ⟨2026, 10, 12⟩)
      [("expiry_date", "2026-10-02")]).details.lookup "days_expired" =
      some (.i 10) :=
  (document_expiry_thresholds [("expiry_date", "2026-10-02")]
    (tsOfYMD ⟨2026, 10, 12⟩) ⟨2026, 10, 2⟩ (by decide)).2.2.2 (by decide)

/-! ## The Ontario health card validator
(`app/services/validators/ontario_health_card.py`)

Diagnostic `details` keys that no claim mentions are elided; `issues` and
`warnings` (which determine status and message) are modelled exactly.
-/

/-- `OntarioHealthCardValidator._luhn_checksum` (lines 28-59): reverse the
digits, double every second digit (subtracting 9 above 9) and check the sum
mod 10. -/
def luhn_checksum (number : String) : Bool :=
  if pyIsDigitStr number then
    let digits := (number.data.map (fun c => c.toNat - '0'.toNat)).reverse
    let addend := fun (i d : ℕ) =>
      if i % 2 == 1 then (if d * 2 > 9 then d * 2 - 9 else d * 2) else d
    let checksum := ((List.range digits.length).zip digits).foldl
      (fun acc p => acc + addend p.1 p.2) 0
    checksum % 10 == 0
  else false

/-- `OntarioHealthCardValidator._parse_health_card_number` (lines 61-96):
strip separators, uppercase, then extract the 10-digit health number and the
2-letter version code. -/
def parse_health_card_number (document_number : String) : String × String × Bool :=
  if document_number == "" then ("", "", false)
  else
    let clean := dropSpaceHyphen (strUpper document_number)
    if clean.data.length == 12 && (clean.data.take 10).all Char.isDigit &&
        (clean.data.drop 10).all Char.isUpper then
      (⟨clean.data.take 10⟩, ⟨clean.data.drop 10⟩, true)
    else if clean.data.length == 10 && clean.data.all Char.isDigit then
      (clean, "", true)
    else
      let digits : String := ⟨clean.data.filter Char.isDigit⟩
      let letters : String := ⟨clean.data.filter Char.isUpper⟩
      if digits.data.length == 10 && letters.data.length == 2 then
        (digits, letters, true)
      else if digits.data.length == 10 && letters.data.length == 0 then
        (digits, "", true)
      else (clean, "", false)

/-- Version-code letters excluded to avoid confusion with numbers. -/
def INVALID_VERSION_LETTERS : List Char := ['I', 'O', 'Q', 'U']

/-- `OntarioHealthCardValidator._validate_version_code` (lines 101-133). -/
def validate_version_code (version_code : String) : Bool × String :=
  if version_code == "" then (true, "No version code (may be old-style card)")
  else if !(version_code.data.length == 2) then
    (false, "Version code must be 2 letters, got " ++ toString version_code.data.length)
  else if !(version_code.data.all Char.isAlpha) then
    (false, "Version code must be letters only, got '" ++ version_code ++ "'")
  else
    let invalid_found :=
      (strUpper version_code).data.filter (fun c => INVALID_VERSION_LETTERS.contains c)
    if !invalid_found.isEmpty then
      (false, "Version code contains invalid letter(s): " ++
        joinSep ", " (invalid_found.map Char.toString) ++
        ". Letters I, O, Q, U are not used in Ontario Health Card version codes.")
    else (true, "Valid version code: " ++ version_code)

/-- Check 1 of `OntarioHealthCardValidator.validate`: format issues. -/
def ohc_format_issues (document_number : String) (is_valid_format : Bool) :
    List String :=
  if document_number == "" then ["Missing health card number"]
  else if !is_valid_format then
    ["Invalid Ontario Health Card format. Expected: 10 digits + 2-letter version code " ++
      "(e.g., 1234567890AB), Got: " ++ document_number]
  else []

/-- Check 2: the Luhn checksum issue. -/
def ohc_luhn_issues (health_number : String) : List String :=
  if !(health_number == "") && health_number.data.length == 10 then
    if !(luhn_checksum health_number) then
      ["Health card number '" ++ health_number ++ "' failed Luhn checksum validation. " ++
        "The number may be incorrectly entered or invalid."]
    else []
  else []

/-- Check 3: version-code issues. -/
def ohc_version_issues (is_valid_format : Bool) (version_code : String) : List String :=
  if is_valid_format then
    if version_code == "" then []
    else if !(validate_version_code version_code).1 then
      ["Invalid version code: " ++ (validate_version_code version_code).2]
    else []
  else []

/-- Check 3: version-code warnings (missing version code). -/
def ohc_version_warnings (is_valid_format : Bool) (version_code : String) : List String :=
  if is_valid_format && version_code == "" then
    ["No version code found. This may be an old-style (red and white) health card " ++
      "which is being phased out."]
  else []

/-- Check 4: expiry issues. -/
def ohc_expiry_issues (now : ℤ) (expiry_date : String) : List String :=
  if !(expiry_date == "") then
    match parse_date expiry_date with
    | some exp =>
      if tsOfYMD exp < now then
        ["Health card expired " ++ toString (timedeltaDays now (tsOfYMD exp)) ++ " days ago"]
      else []
    | none => []
  else []

/-- Check 4: expiry warnings (near expiry, or no expiry on an old-style card). -/
def ohc_expiry_warnings (now : ℤ) (expiry_date version_code : String) : List String :=
  if !(expiry_date == "") then
    match parse_date expiry_date with
    | some exp =>
      if tsOfYMD exp < now then []
      else if timedeltaDays (tsOfYMD exp) now < 90 then
        ["Health card expires in " ++ toString (timedeltaDays (tsOfYMD exp) now) ++
          " days. Consider renewing soon."]
      else []
    | none => []
  else if version_code == "" then
    ["No expiry date. Old-style health cards without photo are being phased out. " ++
      "Please update to a photo health card."]
  else []

/-- Check 5: date-of-birth issues. -/
def ohc_dob_issues (now : ℤ) (date_of_birth : String) : List String :=
  if !(date_of_birth == "") then
    match parse_date date_of_birth with
    | some dob => if tsOfYMD dob > now then ["Date of birth cannot be in the future"] else []
    | none => []
  else []

/-- `OntarioHealthCardValidator.validate` (lines 135-260), with
`datetime.now()` passed in as `now`; the five checks accumulate `issues`
and `warnings` in source order and the result status is FAILED/WARNING/PASSED
accordingly. -/
def ohc_issues (now : ℤ) (document_data : Fields) : List String :=
  let document_number := fieldGet document_data "document_number"
  let p := parse_health_card_number document_number
  ohc_format_issues document_number p.2.2 ++
    ohc_luhn_issues p.1 ++
    ohc_version_issues p.2.2 p.2.1 ++
    ohc_expiry_issues now (fieldGet document_data "expiry_date") ++
    ohc_dob_issues now (fieldGet document_data "date_of_birth")

def ohc_warnings (now : ℤ) (document_data : Fields) : List String :=
  let p := parse_health_card_number (fieldGet document_data "document_number")
  ohc_version_warnings p.2.2 p.2.1 ++
    ohc_expiry_warnings now (fieldGet document_data "expiry_date") p.2.1

def OntarioHealthCardValidator.validate (now : ℤ) (document_data : Fields) :
    ValidatorResult :=
  let issues := ohc_issues now document_data
  let warnings := ohc_warnings now document_data
  if !issues.isEmpty then
    { validator_name := "ontario_health_card"
      status := .failed
      message := "Ontario Health Card validation failed: " ++ joinSep "; " issues
      details := [("issues", .strs issues), ("warnings", .strs warnings)] }
  else if !warnings.isEmpty then
    { validator_name := "ontario_health_card"
      status := .warning
      message := "Ontario Health Card validation passed with warnings"
      details := [("warnings", .strs warnings)] }
  else
    { validator_name := "ontario_health_card"
      status := .passed
      message := "Ontario Health Card validation passed"
      details := [] }

/-- C4.  For every input whose `document_number` parses to a 10-digit health
number (with or without a version code) that fails the Luhn checksum, the
Ontario health card validator FAILs with a message naming "Luhn checksum"
(`ontario_health_card.py`, lines 28-59 and 164-176). -/
theorem ontario_health_card_luhn_failed (now : ℤ) (document_data : Fields)
    (hn vc : String)
    (hparse : parse_health_card_number (fieldGet document_data "document_number") =
      (hn, vc, true))
    (hlen : hn.data.length = 10)
    (hluhn : luhn_checksum hn = false) :
    (OntarioHealthCardValidator.validate now document_data).status = .failed ∧
    StrContains (OntarioHealthCardValidator.validate now document_data).message
      "Luhn checksum" := by
  have hdn : (fieldGet document_data "document_number" == "") = false := by
    rw [beq_eq_false_iff_ne]
    intro h
    rw [h] at hparse
    have h22 := congrArg (fun t : String × String × Bool => t.2.2) hparse
    simp [parse_health_card_number] at h22
  have hfmt : ohc_format_issues (fieldGet document_data "document_number") true = [] := by
    simp [ohc_format_issues, hdn]
  have hne : (hn == "") = false := by
    rw [beq_eq_false_iff_ne]
    intro h
    rw [h] at hlen
    simp at hlen
  have hli : ohc_luhn_issues hn =
      ["Health card number '" ++ hn ++ "' failed Luhn checksum validation. " ++
        "The number may be incorrectly entered or invalid."] := by
    simp [ohc_luhn_issues, hne, hlen, hluhn]
  have hiss : ohc_issues now document_data =
      ("Health card number '" ++ hn ++ "' failed Luhn checksum validation. " ++
        "The number may be incorrectly entered or invalid.") ::
      (ohc_version_issues true vc ++
        (ohc_expiry_issues now (fieldGet document_data "expiry_date") ++
          ohc_dob_issues now (fieldGet document_data "date_of_birth"))) := by
    simp only [ohc_issues, hparse]
    rw [hfmt, hli]
    simp [List.append_assoc]
  have hval : OntarioHealthCardValidator.validate now document_data =
      { validator_name := "ontario_health_card"
        status := .failed
        message := "Ontario Health Card validation failed: " ++
          joinSep "; " (ohc_issues now document_data)
        details := [("issues", .strs (ohc_issues now document_data)),
          ("warnings", .strs (ohc_warnings now document_data))] } := by
    rw [OntarioHealthCardValidator.validate]
    rw [hiss]
    simp [hiss]
  rw [hval]
  refine ⟨rfl, ?_⟩
  rw [hiss]
  refine StrContains.append_left _ (StrContains.joinSep_head _ _ ?_)
  refine StrContains.append_right _ ?_
  refine StrContains.append_left _ ?_
  exact (strContainsB_iff _ _).mp (by decide)

/-- Concrete instantiation of `ontario_health_card_luhn_failed`: Scenario B's
`document_number = "1234567890AB"`, whose 10-digit part fails the Luhn
checksum. -/
theorem ontario_health_card_luhn_failed_witness :
    (OntarioHealthCardValidator.validate 0
      [("document_number", "1234567890AB")]).status = .failed ∧
    StrContains (OntarioHealthCardValidator.validate 0
      [("document_number", "1234567890AB")]).message "Luhn checksum" :=
  ontario_health_card_luhn_failed 0 [("document_number", "1234567890AB")]
    "1234567890" "AB" (by decide) (by decide) (by decide)

/-! ## The Ontario driver's-licence validator
(`app/services/validators/ontario_dl.py`)

As with the health-card validator, `issues`/`warnings` (which determine
status and message) are modelled exactly; per-check diagnostic `details`
keys are elided, and the `{validity_years:.1f}` float interpolation in one
warning text is left out of the message string.
-/

/-- Python tuple comparison `(a1, a2) < (b1, b2)` used by the age formula. -/
def pairLt (a b : ℕ × ℕ) : Bool := a.1 < b.1 || (a.1 == b.1 && a.2 < b.2)

/-- `today.year - dob.year - ((today.month, today.day) < (dob.month, dob.day))`. -/
def computeAge (today dob : YMD) : ℤ :=
  (today.year : ℤ) - (dob.year : ℤ) -
    (if pairLt (today.month, today.day) (dob.month, dob.day) then 1 else 0)

/-- `^[A-Z]\d{4}-\d{5}-\d{5}$` (the strict Ontario DL format). -/
def re_ontario_strict (s : String) : Bool :=
  (Option.some s.data >>= chompClass Char.isUpper 1 >>= chompClass Char.isDigit 4 >>=
    chompLit '-' >>= chompClass Char.isDigit 5 >>= chompLit '-' >>=
    chompClass Char.isDigit 5).any List.isEmpty

/-- Python `s.split(",", 1)[0]`. -/
def splitCommaFirst (s : String) : String :=
  ⟨s.data.takeWhile (fun c => !(c == ','))⟩

/-- Word accumulator for Python's argumentless `str.split()`. -/
def wsWordsAux : List Char → List Char → List (List Char)
  | [], acc => if acc.isEmpty then [] else [acc.reverse]
  | c :: rest, acc =>
    if pyIsSpace c then
      if acc.isEmpty then wsWordsAux rest [] else acc.reverse :: wsWordsAux rest []
    else wsWordsAux rest (c :: acc)

/-- Words of a string under Python's argumentless `str.split()`. -/
def wsWords (cs : List Char) : List (List Char) := wsWordsAux cs []

/-- Python `s.split()` (whitespace words). -/
def pySplit (s : String) : List String := (wsWords s.data).map (fun w => ⟨w⟩)

/-- `OntarioDriversLicenseValidator._extract_last_name` (lines 28-59). -/
def extract_last_name (document_data : Fields) : String × String :=
  let full_name := fieldGet document_data "full_name"
  let from_full : Option (String × String) :=
    if !(full_name == "") then
      if strContainsB full_name "," then
        let last_name := strStrip (splitCommaFirst full_name)
        if !(last_name == "") then some (last_name, "full_name_comma_format") else none
      else
        match pySplit (strStrip full_name) with
        | w :: _ => some (strStrip w, "full_name_first_word")
        | [] => none
    else none
  match from_full with
  | some r => r
  | none =>
    let last_name := fieldGet document_data "last_name"
    if !(last_name == "") then (strStrip last_name, "last_name_field")
    else ("", "not_found")

/-- Check 1: licence-number format (issues, warnings). -/
def odl_format_check (document_number clean_number : String) :
    List String × List String :=
  if clean_number == "" then (["Missing license number"], [])
  else if !(re_ontario_strict clean_number) then
    let clean_no_hyphen := dropSpaceHyphen clean_number
    if clean_no_hyphen.data.length == 15 && (clean_no_hyphen.data.headD ' ').isAlpha then
      ([], ["License number format non-standard but may be valid: " ++ document_number])
    else
      (["Invalid Ontario DL format. Expected: A1234-12345-12345, Got: " ++ document_number],
        [])
  else ([], [])

/-- Check 2: first letter of the licence number vs the last-name initial. -/
def odl_letter_check (clean_number last_name name_source : String) :
    List String × List String :=
  if !(clean_number == "") then
    let license_letter := strUpper ⟨[clean_number.data.headD ' ']⟩
    if !(last_name == "") then
      let last_name_letter := strUpper ⟨[last_name.data.headD ' ']⟩
      if !(license_letter == last_name_letter) then
        (["License first letter '" ++ license_letter ++ "' does not match " ++
          "last name initial '" ++ last_name_letter ++ "' (from " ++ name_source ++ ")"], [])
      else ([], [])
    else
      ([], ["Cannot verify license letter '" ++ license_letter ++ "' - no last name found. " ++
        "Ontario DL format: 'LASTNAME, FIRSTNAME'"])
  else ([], [])

/-- Check 3: minimum age (16 for G1; under 18 only a warning). -/
def odl_age_check (today : YMD) (date_of_birth : String) :
    List String × List String :=
  if !(date_of_birth == "") then
    match parse_date date_of_birth with
    | some dob =>
      let age := computeAge today dob
      if age < 16 then
        (["Person is " ++ toString age ++
          " years old. Ontario requires minimum 16 for G1 license"], [])
      else if age < 18 then
        ([], ["Person is " ++ toString age ++
          ". May only hold G1/G2 license (full G requires 18+)"])
      else ([], [])
    | none => ([], [])
  else ([], [])

/-- Check 4: expiry falls on the holder's birthday (warning only). -/
def odl_birthday_check (date_of_birth expiry_date : String) : List String :=
  if !(date_of_birth == "") && !(expiry_date == "") then
    match parse_date date_of_birth, parse_date expiry_date with
    | some dob, some exp =>
      if dob.month == exp.month && dob.day == exp.day then []
      else
        ["Expiry date (" ++ pad2 exp.month ++ "-" ++ pad2 exp.day ++
          ") is not on birthday (" ++ pad2 dob.month ++ "-" ++ pad2 dob.day ++
          "). Ontario DL typically expires on holder's birthday"]
    | _, _ => []
  else []

/-- Check 5: validity period at most ~6 years (warning only). -/
def odl_validity_check (issue_date_str expiry_date : String) : List String :=
  if !(issue_date_str == "") && !(expiry_date == "") then
    match parse_date issue_date_str, parse_date expiry_date with
    | some issued, some exp =>
      let validity_years : ℚ := (timedeltaDays (tsOfYMD exp) (tsOfYMD issued) : ℚ) / 365
      if 6 < validity_years then
        ["Validity period exceeds typical 5-year Ontario DL term"]
      else []
    | _, _ => []
  else []

/-- Check 6: last six digits encode the DOB as `YYMMDD`, with 50 added to
the month for female holders. -/
def odl_dob_encoding_check (clean_number date_of_birth gender_raw : String) :
    List String × List String :=
  if !(clean_number == "") && !(date_of_birth == "") then
    match parse_date date_of_birth with
    | some dob =>
      let clean_no_hyphen := dropSpaceHyphen clean_number
      let last6 : String := ⟨clean_no_hyphen.data.drop (clean_no_hyphen.data.length - 6)⟩
      let expected_male := pad2 (dob.year % 100) ++ pad2 dob.month ++ pad2 dob.day
      let expected_female := pad2 (dob.year % 100) ++ pad2 (dob.month + 50) ++ pad2 dob.day
      let gender := strStrip (strUpper gender_raw)
      if last6 == expected_male then
        (if !(gender == "") && (gender == "F" || gender == "FEMALE") then
          ([], ["License uses male DOB encoding but gender is '" ++ gender ++
            "'. Expected female encoding with month +50."])
        else ([], []))
      else if last6 == expected_female then
        (if !(gender == "") && (gender == "M" || gender == "MALE") then
          ([], ["License uses female DOB encoding (month +50) but gender is '" ++
            gender ++ "'."])
        else ([], []))
      else
        (["Last 6 digits of license '" ++ last6 ++ "' do not match " ++
          "DOB encoding. Expected '" ++ expected_male ++ "' (male) or '" ++
          expected_female ++ "' (female with month +50)"], [])
    | none => ([], [])
  else ([], [])

/-- Outcome of the feature-flagged Verifik verification call (§6 of the
spec): `VALID`, `INVALID`, or `ERROR` (timeout/transport). -/
inductive VerifikStatus
  | valid | invalid | error
deriving DecidableEq, Repr

structure VerifikResult where
  status : VerifikStatus
  message : String
deriving DecidableEq, Repr

/-- Check 7: the external Verifik call, run only when no local issue was
found; `none` models the disabled feature flag. -/
def odl_verifik_check (verifik : Option VerifikResult) (issues_so_far : List String) :
    List String × List String :=
  match verifik with
  | none => ([], [])
  | some r =>
    if issues_so_far.isEmpty then
      match r.status with
      | .valid => ([], [])
      | .invalid => (["Verifik API: " ++ r.message], [])
      | .error => ([], ["Verifik API: " ++ r.message])
    else ([], [])

/-- `OntarioDriversLicenseValidator.validate` (lines 61-258), with
`datetime.now()` passed in as `today` and the Verifik outcome as `verifik`. -/
def OntarioDriversLicenseValidator.validate (today : YMD)
    (verifik : Option VerifikResult) (document_data : Fields) : ValidatorResult :=
  let document_number := fieldGet document_data "document_number"
  let en := extract_last_name document_data
  let date_of_birth := fieldGet document_data "date_of_birth"
  let expiry_date := fieldGet document_data "expiry_date"
  let clean_number := strUpper (strStrip document_number)
  let c1 := odl_format_check document_number clean_number
  let c2 := odl_letter_check clean_number en.1 en.2
  let c3 := odl_age_check today date_of_birth
  let w4 := odl_birthday_check date_of_birth expiry_date
  let w5 := odl_validity_check (fieldGet document_data "issue_date") expiry_date
  let c6 := odl_dob_encoding_check clean_number date_of_birth
    (fieldGet document_data "gender")
  let issues6 := c1.1 ++ c2.1 ++ c3.1 ++ c6.1
  let c7 := odl_verifik_check verifik issues6
  let issues := issues6 ++ c7.1
  let warnings := c1.2 ++ c2.2 ++ c3.2 ++ w4 ++ w5 ++ c6.2 ++ c7.2
  if !issues.isEmpty then
    { validator_name := "ontario_drivers_license"
      status := .failed
      message := "Ontario DL validation failed: " ++ joinSep "; " issues
      details := [("issues", .strs issues), ("warnings", .strs warnings)] }
  else if !warnings.isEmpty then
    { validator_name := "ontario_drivers_license"
      status := .warning
      message := "Ontario DL validation passed with warnings"
      details := [("warnings", .strs warnings)] }
  else
    { validator_name := "ontario_drivers_license"
      status := .passed
      message := "Ontario Driver's License validation passed"
      details := [] }

/-! ## Document-number pattern matchers

One Boolean scanner per regex appearing in `DOC_NUMBER_FORMATS` and in the
`license_format` entries of `DOCUMENT_PATTERNS`; every pattern is anchored
(`^...$`) so `re.match` is a whole-string test.
-/

/-- `c?` as an `Option` step. -/
def chompOpt (c : Char) (cs : List Char) : Option (List Char) := some (optLit c cs)

/-- `^[A-Z]\d{4}-?\d{5}-?\d{5}$` -/
def re_ontario_opt (s : String) : Bool :=
  (some s.data >>= chompClass Char.isUpper 1 >>= chompClass Char.isDigit 4 >>=
    chompOpt '-' >>= chompClass Char.isDigit 5 >>= chompOpt '-' >>=
    chompClass Char.isDigit 5).any List.isEmpty

/-- The optional `(NDL:?|DL:?)` prefix of the BC pattern. -/
def bcChompPre : List Char → List Char
  | 'N' :: 'D' :: 'L' :: ':' :: r => r
  | 'N' :: 'D' :: 'L' :: r => r
  | 'D' :: 'L' :: ':' :: r => r
  | 'D' :: 'L' :: r => r
  | cs => cs

/-- `^(NDL:?|DL:?)?\d{6,7}$` -/
def re_bc (s : String) : Bool := tailClass Char.isDigit 6 7 (bcChompPre s.data)

/-- `^\d{6}-?\d{3}$` -/
def re_alberta (s : String) : Bool :=
  (some s.data >>= chompClass Char.isDigit 6 >>= chompOpt '-').any
    (tailClass Char.isDigit 3 3)

/-- `^[A-Z]\d{4}-?\d{6}-?\d{2}$` -/
def re_quebec (s : String) : Bool :=
  (some s.data >>= chompClass Char.isUpper 1 >>= chompClass Char.isDigit 4 >>=
    chompOpt '-' >>= chompClass Char.isDigit 6 >>= chompOpt '-').any
    (tailClass Char.isDigit 2 2)

/-- `^\d{9}$` -/
def re_d9 (s : String) : Bool := tailClass Char.isDigit 9 9 s.data

/-- `^\d{8}$` -/
def re_d8 (s : String) : Bool := tailClass Char.isDigit 8 8 s.data

/-- `^\d{7}$` -/
def re_d7 (s : String) : Bool := tailClass Char.isDigit 7 7 s.data

/-- `^\d{6}$` -/
def re_d6 (s : String) : Bool := tailClass Char.isDigit 6 6 s.data

/-- `^\d{1,6}$` -/
def re_d1_6 (s : String) : Bool := tailClass Char.isDigit 1 6 s.data

/-- `^[A-Z]{5}\d{9}$` -/
def re_ns (s : String) : Bool :=
  (chompClass Char.isUpper 5 s.data).any (tailClass Char.isDigit 9 9)

/-- `^[A-Z]\d{9}$` -/
def re_l1d9 (s : String) : Bool :=
  (chompClass Char.isUpper 1 s.data).any (tailClass Char.isDigit 9 9)

/-- `^\d{10}[A-Z]{2}$` -/
def re_ohc (s : String) : Bool :=
  (chompClass Char.isDigit 10 s.data).any (tailClass Char.isUpper 2 2)

/-- `^[A-Z]{2}\d{6}$` -/
def re_l2d6 (s : String) : Bool :=
  (chompClass Char.isUpper 2 s.data).any (tailClass Char.isDigit 6 6)

/-- `^[A-Z]\d{7}$` -/
def re_l1d7 (s : String) : Bool :=
  (chompClass Char.isUpper 1 s.data).any (tailClass Char.isDigit 7 7)

/-- `^[A-Z]\d{8}$` -/
def re_l1d8 (s : String) : Bool :=
  (chompClass Char.isUpper 1 s.data).any (tailClass Char.isDigit 8 8)

/-- `^[A-Z]{1,2}\d{7}$` (uppercase letters and digits are disjoint, so the
greedy reading is exact). -/
def re_l12d7 (s : String) : Bool :=
  match s.data with
  | a :: b :: rest =>
    if a.isUpper && b.isUpper then tailClass Char.isDigit 7 7 rest
    else if a.isUpper then tailClass Char.isDigit 7 7 (b :: rest)
    else false
  | _ => false

/-- `^[A-Z]{2}\d{7}$` -/
def re_l2d7 (s : String) : Bool :=
  (chompClass Char.isUpper 2 s.data).any (tailClass Char.isDigit 7 7)

/-- `^[EGD]\d{8}$` -/
def re_egd8 (s : String) : Bool :=
  match s.data with
  | c :: rest => (c == 'E' || c == 'G' || c == 'D') && tailClass Char.isDigit 8 8 rest
  | [] => false

/-- `^[A-Z0-9]{9}$` -/
def re_alnum9 (s : String) : Bool := tailClass isUpperDigit 9 9 s.data

/-- `^[A-Z0-9]{6,12}$` -/
def re_alnum6_12 (s : String) : Bool := tailClass isUpperDigit 6 12 s.data

/-- `^[A-Z0-9]{6,15}$` -/
def re_alnum6_15 (s : String) : Bool := tailClass isUpperDigit 6 15 s.data

/-! ## The document-type data model (`app/models/document_types.py`) -/
/-- `DocumentType` from `app/models/document_types.py`. -/
inductive DocumentType
  | ONTARIO_DRIVERS_LICENSE
  | ONTARIO_HEALTH_CARD
  | BC_DRIVERS_LICENSE
  | ALBERTA_DRIVERS_LICENSE
  | QUEBEC_DRIVERS_LICENSE
  | MANITOBA_DRIVERS_LICENSE
  | SASKATCHEWAN_DRIVERS_LICENSE
  | NOVA_SCOTIA_DRIVERS_LICENSE
  | NEW_BRUNSWICK_DRIVERS_LICENSE
  | PEI_DRIVERS_LICENSE
  | NEWFOUNDLAND_DRIVERS_LICENSE
  | NWT_DRIVERS_LICENSE
  | NUNAVUT_DRIVERS_LICENSE
  | YUKON_DRIVERS_LICENSE
  | CANADIAN_PASSPORT
  | US_PASSPORT
  | UK_PASSPORT
  | INDIA_PASSPORT
  | AUSTRALIA_PASSPORT
  | GERMANY_PASSPORT
  | FRANCE_PASSPORT
  | NIGERIA_PASSPORT
  | CHINA_PASSPORT
  | COLOMBIA_PASSPORT
  | UKRAINE_PASSPORT
  | GENERIC_PASSPORT
  | ONTARIO_PHOTO_CARD
  | BC_PHOTO_ID
  | ALBERTA_PHOTO_ID
  | GENERIC_PHOTO_ID
  | CANADA_PR_CARD
  | CALIFORNIA_DRIVERS_LICENSE
  | TEXAS_DRIVERS_LICENSE
  | US_DRIVERS_LICENSE
  | GENERIC_ID
  | UNKNOWN
deriving DecidableEq, Repr

/-- The string `.value` of each `DocumentType` member. -/
def DocumentType.value : DocumentType → String
  | .ONTARIO_DRIVERS_LICENSE => "ontario_drivers_license"
  | .ONTARIO_HEALTH_CARD => "ontario_health_card"
  | .BC_DRIVERS_LICENSE => "bc_drivers_license"
  | .ALBERTA_DRIVERS_LICENSE => "alberta_drivers_license"
  | .QUEBEC_DRIVERS_LICENSE => "quebec_drivers_license"
  | .MANITOBA_DRIVERS_LICENSE => "manitoba_drivers_license"
  | .SASKATCHEWAN_DRIVERS_LICENSE => "saskatchewan_drivers_license"
  | .NOVA_SCOTIA_DRIVERS_LICENSE => "nova_scotia_drivers_license"
  | .NEW_BRUNSWICK_DRIVERS_LICENSE => "new_brunswick_drivers_license"
  | .PEI_DRIVERS_LICENSE => "pei_drivers_license"
  | .NEWFOUNDLAND_DRIVERS_LICENSE => "newfoundland_drivers_license"
  | .NWT_DRIVERS_LICENSE => "nwt_drivers_license"
  | .NUNAVUT_DRIVERS_LICENSE => "nunavut_drivers_license"
  | .YUKON_DRIVERS_LICENSE => "yukon_drivers_license"
  | .CANADIAN_PASSPORT => "canadian_passport"
  | .US_PASSPORT => "us_passport"
  | .UK_PASSPORT => "uk_passport"
  | .INDIA_PASSPORT => "india_passport"
  | .AUSTRALIA_PASSPORT => "australia_passport"
  | .GERMANY_PASSPORT => "germany_passport"
  | .FRANCE_PASSPORT => "france_passport"
  | .NIGERIA_PASSPORT => "nigeria_passport"
  | .CHINA_PASSPORT => "china_passport"
  | .COLOMBIA_PASSPORT => "colombia_passport"
  | .UKRAINE_PASSPORT => "ukraine_passport"
  | .GENERIC_PASSPORT => "generic_passport"
  | .ONTARIO_PHOTO_CARD => "ontario_photo_card"
  | .BC_PHOTO_ID => "bc_photo_id"
  | .ALBERTA_PHOTO_ID => "alberta_photo_id"
  | .GENERIC_PHOTO_ID => "generic_photo_id"
  | .CANADA_PR_CARD => "canada_pr_card"
  | .CALIFORNIA_DRIVERS_LICENSE => "california_drivers_license"
  | .TEXAS_DRIVERS_LICENSE => "texas_drivers_license"
  | .US_DRIVERS_LICENSE => "us_drivers_license"
  | .GENERIC_ID => "generic_id"
  | .UNKNOWN => "unknown"

/-- One entry of `DOCUMENT_PATTERNS`. -/
structure PatternInfo where
  name : String
  country : Option String
  country_code : Option String
  state_province : Option String
  license_format : String → Bool
  license_format_src : String
  keywords : List String

/-- `DOCUMENT_PATTERNS` from `app/models/document_types.py`, in source
order.  `required_fields` is carried in the source but never read by
any modelled code path, so it is omitted.  `license_format_src` records
the regex text for the detector trace strings. -/
def DOCUMENT_PATTERNS : List (DocumentType × PatternInfo) := [
  (.ONTARIO_DRIVERS_LICENSE,
   { name := "Ontario Driver's License"
     country := some "Canada"
     country_code := none
     state_province := some "Ontario"
     license_format := re_ontario_strict
     license_format_src := "^[A-Z]\\d{4}-\\d{5}-\\d{5}$"
     keywords := ["ontario", "driver's licence", "driver licence", "class g", "class g1", "class g2"] }),
  (.ONTARIO_HEALTH_CARD,
   { name := "Ontario Health Card"
     country := some "Canada"
     country_code := none
     state_province := some "Ontario"
     license_format := re_ohc
     license_format_src := "^\\d{10}[A-Z]{2}$"
     keywords := ["ontario", "health card", "ohip", "ministry of health", "carte santé"] }),
  (.BC_DRIVERS_LICENSE,
   { name := "BC Driver's Licence"
     country := some "Canada"
     country_code := none
     state_province := some "British Columbia"
     license_format := re_bc
     license_format_src := "^(NDL:?|DL:?)?\\d{6,7}$"
     keywords := ["british columbia", "bc", "driver's licence", "driver licence", "class 5", "class 7", "ndl"] }),
  (.ALBERTA_DRIVERS_LICENSE,
   { name := "Alberta Driver's Licence"
     country := some "Canada"
     country_code := none
     state_province := some "Alberta"
     license_format := re_alberta
     license_format_src := "^\\d{6}-?\\d{3}$"
     keywords := ["alberta", "ab", "driver's licence", "driver licence", "class 5", "class 7", "gdl"] }),
  (.QUEBEC_DRIVERS_LICENSE,
   { name := "Quebec Driver's Licence"
     country := some "Canada"
     country_code := none
     state_province := some "Quebec"
     license_format := re_quebec
     license_format_src := "^[A-Z]\\d{4}-?\\d{6}-?\\d{2}$"
     keywords := ["quebec", "qc", "permis de conduire", "driver's licence", "classe 5", "probatoire"] }),
  (.MANITOBA_DRIVERS_LICENSE,
   { name := "Manitoba Driver's Licence"
     country := some "Canada"
     country_code := none
     state_province := some "Manitoba"
     license_format := re_d9
     license_format_src := "^\\d{9}$"
     keywords := ["manitoba", "mb", "driver's licence", "driver licence", "class 5", "dd/réf", "dd/ref"] }),
  (.SASKATCHEWAN_DRIVERS_LICENSE,
   { name := "Saskatchewan Driver's Licence"
     country := some "Canada"
     country_code := none
     state_province := some "Saskatchewan"
     license_format := re_d8
     license_format_src := "^\\d{8}$"
     keywords := ["saskatchewan", "sk", "sgi", "driver's licence", "driver licence", "class 5", "class 7"] }),
  (.NOVA_SCOTIA_DRIVERS_LICENSE,
   { name := "Nova Scotia Driver's Licence"
     country := some "Canada"
     country_code := none
     state_province := some "Nova Scotia"
     license_format := re_ns
     license_format_src := "^[A-Z]{5}\\d{9}$"
     keywords := ["nova scotia", "ns", "driver's licence", "driver licence", "class 5", "class 7"] }),
  (.NEW_BRUNSWICK_DRIVERS_LICENSE,
   { name := "New Brunswick Driver's Licence"
     country := some "Canada"
     country_code := none
     state_province := some "New Brunswick"
     license_format := re_d7
     license_format_src := "^\\d{7}$"
     keywords := ["new brunswick", "nouveau-brunswick", "nb", "driver's licence", "permis de conduire", "class 5", "class 7"] }),
  (.PEI_DRIVERS_LICENSE,
   { name := "PEI Driver's Licence"
     country := some "Canada"
     country_code := none
     state_province := some "Prince Edward Island"
     license_format := re_d1_6
     license_format_src := "^\\d{1,6}$"
     keywords := ["prince edward island", "pei", "pe", "driver's licence", "driver licence", "class 5", "class 7"] }),
  (.NEWFOUNDLAND_DRIVERS_LICENSE,
   { name := "Newfoundland Driver's Licence"
     country := some "Canada"
     country_code := none
     state_province := some "Newfoundland and Labrador"
     license_format := re_l1d9
     license_format_src := "^[A-Z]\\d{9}$"
     keywords := ["newfoundland", "labrador", "nl", "driver's licence", "driver licence", "class 5", "class 7"] }),
  (.NWT_DRIVERS_LICENSE,
   { name := "NWT Driver's Licence"
     country := some "Canada"
     country_code := none
     state_province := some "Northwest Territories"
     license_format := re_d6
     license_format_src := "^\\d{6}$"
     keywords := ["northwest territories", "nwt", "nt", "driver's licence", "driver licence", "class 5", "class 7"] }),
  (.NUNAVUT_DRIVERS_LICENSE,
   { name := "Nunavut Driver's Licence"
     country := some "Canada"
     country_code := none
     state_province := some "Nunavut"
     license_format := re_d6
     license_format_src := "^\\d{6}$"
     keywords := ["nunavut", "nu", "driver's licence", "driver licence", "class 5", "class 7"] }),
  (.YUKON_DRIVERS_LICENSE,
   { name := "Yukon Driver's Licence"
     country := some "Canada"
     country_code := none
     state_province := some "Yukon"
     license_format := re_d6
     license_format_src := "^\\d{6}$"
     keywords := ["yukon", "yt", "yk", "driver's licence", "driver licence", "class 5", "class 7"] }),
  (.CANADIAN_PASSPORT,
   { name := "Canadian Passport"
     country := some "Canada"
     country_code := some "CAN"
     state_province := none
     license_format := re_l2d6
     license_format_src := "^[A-Z]{2}\\d{6}$"
     keywords := ["canada", "canadian", "passport", "passeport", "CAN"] }),
  (.US_PASSPORT,
   { name := "US Passport"
     country := some "United States"
     country_code := some "USA"
     state_province := none
     license_format := re_d9
     license_format_src := "^\\d{9}$"
     keywords := ["united states", "usa", "american", "passport", "USA"] }),
  (.UK_PASSPORT,
   { name := "UK Passport"
     country := some "United Kingdom"
     country_code := some "GBR"
     state_province := none
     license_format := re_d9
     license_format_src := "^\\d{9}$"
     keywords := ["united kingdom", "british", "uk", "gbr", "passport", "GBR"] }),
  (.INDIA_PASSPORT,
   { name := "India Passport"
     country := some "India"
     country_code := some "IND"
     state_province := none
     license_format := re_l1d7
     license_format_src := "^[A-Z]\\d{7}$"
     keywords := ["india", "indian", "republic of india", "passport", "IND"] }),
  (.AUSTRALIA_PASSPORT,
   { name := "Australia Passport"
     country := some "Australia"
     country_code := some "AUS"
     state_province := none
     license_format := re_l12d7
     license_format_src := "^[A-Z]{1,2}\\d{7}$"
     keywords := ["australia", "australian", "passport", "AUS"] }),
  (.GERMANY_PASSPORT,
   { name := "Germany Passport"
     country := some "Germany"
     country_code := some "DEU"
     state_province := none
     license_format := re_alnum9
     license_format_src := "^[A-Z0-9]{9}$"
     keywords := ["germany", "german", "bundesrepublik", "deutschland", "passport", "reisepass", "DEU"] }),
  (.FRANCE_PASSPORT,
   { name := "France Passport"
     country := some "France"
     country_code := some "FRA"
     state_province := none
     license_format := re_alnum9
     license_format_src := "^[A-Z0-9]{9}$"
     keywords := ["france", "french", "république française", "passport", "passeport", "FRA"] }),
  (.NIGERIA_PASSPORT,
   { name := "Nigeria Passport"
     country := some "Nigeria"
     country_code := some "NGA"
     state_province := none
     license_format := re_l1d8
     license_format_src := "^[A-Z]\\d{8}$"
     keywords := ["nigeria", "nigerian", "federal republic of nigeria", "passport", "NGA"] }),
  (.CHINA_PASSPORT,
   { name := "China Passport"
     country := some "China"
     country_code := some "CHN"
     state_province := none
     license_format := re_egd8
     license_format_src := "^[EGD]\\d{8}$"
     keywords := ["china", "chinese", "people's republic of china", "中华人民共和国", "passport", "CHN"] }),
  (.COLOMBIA_PASSPORT,
   { name := "Colombia Passport"
     country := some "Colombia"
     country_code := some "COL"
     state_province := none
     license_format := re_l2d7
     license_format_src := "^[A-Z]{2}\\d{7}$"
     keywords := ["colombia", "colombian", "república de colombia", "passport", "pasaporte", "COL"] }),
  (.UKRAINE_PASSPORT,
   { name := "Ukraine Passport"
     country := some "Ukraine"
     country_code := some "UKR"
     state_province := none
     license_format := re_l2d6
     license_format_src := "^[A-Z]{2}\\d{6}$"
     keywords := ["ukraine", "ukrainian", "україна", "passport", "паспорт", "UKR"] }),
  (.GENERIC_PASSPORT,
   { name := "International Passport"
     country := none
     country_code := none
     state_province := none
     license_format := re_alnum6_12
     license_format_src := "^[A-Z0-9]{6,12}$"
     keywords := ["passport", "passeport", "pasaporte", "reisepass", "паспорт"] }),
  (.CANADA_PR_CARD,
   { name := "Canada Permanent Residence Card"
     country := some "Canada"
     country_code := some "CAN"
     state_province := none
     license_format := re_l2d6
     license_format_src := "^[A-Z]{2}\\d{6}$"
     keywords := ["permanent resident", "permanent residence", "résident permanent", "pr card", "immigration", "canada"] }),
  (.CALIFORNIA_DRIVERS_LICENSE,
   { name := "California Driver's License"
     country := some "United States"
     country_code := none
     state_province := some "California"
     license_format := re_l1d7
     license_format_src := "^[A-Z]\\d{7}$"
     keywords := ["california", "ca", "driver license", "driver's license", "dmv", "state of california"] }),
  (.TEXAS_DRIVERS_LICENSE,
   { name := "Texas Driver's License"
     country := some "United States"
     country_code := none
     state_province := some "Texas"
     license_format := re_d8
     license_format_src := "^\\d{8}$"
     keywords := ["texas", "tx", "driver license", "driver's license", "dps", "state of texas"] }),
  (.US_DRIVERS_LICENSE,
   { name := "US Driver's License"
     country := some "United States"
     country_code := none
     state_province := none
     license_format := re_alnum6_15
     license_format_src := "^[A-Z0-9]{6,15}$"
     keywords := ["driver license", "driver's license", "dmv"] })]

/-- `COUNTRY_CODES` (ISO alpha-3 → country name) from
`app/models/document_types.py`, in source order. -/
def COUNTRY_CODES : List (String × String) := [
  ("DZA", "Algeria"),
  ("AGO", "Angola"),
  ("BEN", "Benin"),
  ("BWA", "Botswana"),
  ("BFA", "Burkina Faso"),
  ("BDI", "Burundi"),
  ("CMR", "Cameroon"),
  ("CPV", "Cape Verde"),
  ("CAF", "Central African Republic"),
  ("TCD", "Chad"),
  ("COM", "Comoros"),
  ("COG", "Congo"),
  ("COD", "DR Congo"),
  ("CIV", "Ivory Coast"),
  ("DJI", "Djibouti"),
  ("EGY", "Egypt"),
  ("GNQ", "Equatorial Guinea"),
  ("ERI", "Eritrea"),
  ("SWZ", "Eswatini"),
  ("ETH", "Ethiopia"),
  ("GAB", "Gabon"),
  ("GMB", "Gambia"),
  ("GHA", "Ghana"),
  ("GIN", "Guinea"),
  ("GNB", "Guinea-Bissau"),
  ("KEN", "Kenya"),
  ("LSO", "Lesotho"),
  ("LBR", "Liberia"),
  ("LBY", "Libya"),
  ("MDG", "Madagascar"),
  ("MWI", "Malawi"),
  ("MLI", "Mali"),
  ("MRT", "Mauritania"),
  ("MUS", "Mauritius"),
  ("MAR", "Morocco"),
  ("MOZ", "Mozambique"),
  ("NAM", "Namibia"),
  ("NER", "Niger"),
  ("NGA", "Nigeria"),
  ("RWA", "Rwanda"),
  ("STP", "Sao Tome and Principe"),
  ("SEN", "Senegal"),
  ("SYC", "Seychelles"),
  ("SLE", "Sierra Leone"),
  ("SOM", "Somalia"),
  ("ZAF", "South Africa"),
  ("SSD", "South Sudan"),
  ("SDN", "Sudan"),
  ("TZA", "Tanzania"),
  ("TGO", "Togo"),
  ("TUN", "Tunisia"),
  ("UGA", "Uganda"),
  ("ZMB", "Zambia"),
  ("ZWE", "Zimbabwe"),
  ("ARG", "Argentina"),
  ("BHS", "Bahamas"),
  ("BRB", "Barbados"),
  ("BLZ", "Belize"),
  ("BOL", "Bolivia"),
  ("BRA", "Brazil"),
  ("CAN", "Canada"),
  ("CHL", "Chile"),
  ("COL", "Colombia"),
  ("CRI", "Costa Rica"),
  ("CUB", "Cuba"),
  ("DMA", "Dominica"),
  ("DOM", "Dominican Republic"),
  ("ECU", "Ecuador"),
  ("SLV", "El Salvador"),
  ("GRD", "Grenada"),
  ("GTM", "Guatemala"),
  ("GUY", "Guyana"),
  ("HTI", "Haiti"),
  ("HND", "Honduras"),
  ("JAM", "Jamaica"),
  ("MEX", "Mexico"),
  ("NIC", "Nicaragua"),
  ("PAN", "Panama"),
  ("PRY", "Paraguay"),
  ("PER", "Peru"),
  ("KNA", "Saint Kitts and Nevis"),
  ("LCA", "Saint Lucia"),
  ("VCT", "Saint Vincent and the Grenadines"),
  ("SUR", "Suriname"),
  ("TTO", "Trinidad and Tobago"),
  ("USA", "United States"),
  ("URY", "Uruguay"),
  ("VEN", "Venezuela"),
  ("AFG", "Afghanistan"),
  ("ARM", "Armenia"),
  ("AZE", "Azerbaijan"),
  ("BHR", "Bahrain"),
  ("BGD", "Bangladesh"),
  ("BTN", "Bhutan"),
  ("BRN", "Brunei"),
  ("KHM", "Cambodia"),
  ("CHN", "China"),
  ("CYP", "Cyprus"),
  ("GEO", "Georgia"),
  ("IND", "India"),
  ("IDN", "Indonesia"),
  ("IRN", "Iran"),
  ("IRQ", "Iraq"),
  ("ISR", "Israel"),
  ("JPN", "Japan"),
  ("JOR", "Jordan"),
  ("KAZ", "Kazakhstan"),
  ("KWT", "Kuwait"),
  ("KGZ", "Kyrgyzstan"),
  ("LAO", "Laos"),
  ("LBN", "Lebanon"),
  ("MYS", "Malaysia"),
  ("MDV", "Maldives"),
  ("MNG", "Mongolia"),
  ("MMR", "Myanmar"),
  ("NPL", "Nepal"),
  ("PRK", "North Korea"),
  ("OMN", "Oman"),
  ("PAK", "Pakistan"),
  ("PSE", "Palestine"),
  ("PHL", "Philippines"),
  ("QAT", "Qatar"),
  ("SAU", "Saudi Arabia"),
  ("SGP", "Singapore"),
  ("KOR", "South Korea"),
  ("LKA", "Sri Lanka"),
  ("SYR", "Syria"),
  ("TWN", "Taiwan"),
  ("TJK", "Tajikistan"),
  ("THA", "Thailand"),
  ("TLS", "Timor-Leste"),
  ("TUR", "Turkey"),
  ("TKM", "Turkmenistan"),
  ("ARE", "United Arab Emirates"),
  ("UZB", "Uzbekistan"),
  ("VNM", "Vietnam"),
  ("YEM", "Yemen"),
  ("ALB", "Albania"),
  ("AND", "Andorra"),
  ("AUT", "Austria"),
  ("BLR", "Belarus"),
  ("BEL", "Belgium"),
  ("BIH", "Bosnia and Herzegovina"),
  ("BGR", "Bulgaria"),
  ("HRV", "Croatia"),
  ("CZE", "Czech Republic"),
  ("DNK", "Denmark"),
  ("EST", "Estonia"),
  ("FIN", "Finland"),
  ("FRA", "France"),
  ("DEU", "Germany"),
  ("GRC", "Greece"),
  ("HUN", "Hungary"),
  ("ISL", "Iceland"),
  ("IRL", "Ireland"),
  ("ITA", "Italy"),
  ("XKX", "Kosovo"),
  ("LVA", "Latvia"),
  ("LIE", "Liechtenstein"),
  ("LTU", "Lithuania"),
  ("LUX", "Luxembourg"),
  ("MLT", "Malta"),
  ("MDA", "Moldova"),
  ("MCO", "Monaco"),
  ("MNE", "Montenegro"),
  ("NLD", "Netherlands"),
  ("MKD", "North Macedonia"),
  ("NOR", "Norway"),
  ("POL", "Poland"),
  ("PRT", "Portugal"),
  ("ROU", "Romania"),
  ("RUS", "Russia"),
  ("SMR", "San Marino"),
  ("SRB", "Serbia"),
  ("SVK", "Slovakia"),
  ("SVN", "Slovenia"),
  ("ESP", "Spain"),
  ("SWE", "Sweden"),
  ("CHE", "Switzerland"),
  ("UKR", "Ukraine"),
  ("GBR", "United Kingdom"),
  ("VAT", "Vatican City"),
  ("AUS", "Australia"),
  ("FJI", "Fiji"),
  ("KIR", "Kiribati"),
  ("MHL", "Marshall Islands"),
  ("FSM", "Micronesia"),
  ("NRU", "Nauru"),
  ("NZL", "New Zealand"),
  ("PLW", "Palau"),
  ("PNG", "Papua New Guinea"),
  ("WSM", "Samoa"),
  ("SLB", "Solomon Islands"),
  ("TON", "Tonga"),
  ("TUV", "Tuvalu"),
  ("VUT", "Vanuatu")]

/-! ## The document-type detector
(`app/services/document_type_detector.py`)

`DocumentTypeInfo.confidence` is in hundredths (`0.9 ↦ 90`), per the
modelling conventions above.
-/

structure DocumentTypeInfo where
  document_type : String
  document_type_enum : Option DocumentType
  confidence : ℤ
  country : Option String
  state_province : Option String
  document_name : String
  detected_features : List String
deriving DecidableEq, Repr

def PASSPORT_KEYWORDS : List String :=
  ["passport", "passeport", "pasaporte", "reisepass", "паспорт", "passport no",
   "passport number"]

def DL_KEYWORDS : List String :=
  ["driver", "licence", "license", "permis", "conduire", "operator"]

def HEALTH_CARD_KEYWORDS : List String :=
  ["health card", "health insurance", "ohip", "carte santé", "carte soleil"]

def PHOTO_ID_KEYWORDS : List String :=
  ["photo card", "photo id", "photocard", "photo identification", "identification card",
   "identity card", "id card", "bc services card", "bcid", "bc identification",
   "services card", "bc card", "enhanced id", "provincial id", "government id",
   "non-driver"]

def PR_CARD_KEYWORDS : List String :=
  ["permanent resident", "permanent residence", "résident permanent",
   "pr card", "carte rp", "carte de résident", "resident card",
   "immigration, refugees", "ircc", "immigration canada",
   "government of canada", "gouvernement du canada"]

def PROVINCE_MAPPING : List (String × String) :=
  [("ontario", "Ontario"), ("british columbia", "British Columbia"),
   ("alberta", "Alberta"), ("quebec", "Quebec"), ("québec", "quebec"),
   ("manitoba", "Manitoba"), ("saskatchewan", "Saskatchewan"),
   ("nova scotia", "Nova Scotia"), ("new brunswick", "New Brunswick"),
   ("prince edward island", "Prince Edward Island"),
   ("newfoundland", "Newfoundland and Labrador"),
   ("northwest territories", "Northwest Territories"),
   ("nunavut", "Nunavut"), ("yukon", "Yukon")]

def PROVINCE_ABBREV : List (String × String) :=
  [(" on ", "ontario"), (", on", "ontario"), ("on,", "ontario"), ("ont", "ontario"),
   (" bc ", "british columbia"), (", bc", "british columbia"), ("b.c.", "british columbia"),
   (" ab ", "alberta"), (", ab", "alberta"), ("alta", "alberta"),
   (" qc ", "quebec"), (", qc", "quebec"), ("(qc)", "quebec"), ("que", "quebec"),
   ("permis de conduire", "quebec"),
   (" mb ", "manitoba"), (", mb", "manitoba"),
   (" sk ", "saskatchewan"), (", sk", "saskatchewan"), ("sask", "saskatchewan"),
   (" ns ", "nova scotia"), (", ns", "nova scotia"),
   (" nb ", "new brunswick"), (", nb", "new brunswick"),
   (" pe ", "prince edward island"), (", pe", "prince edward island"),
   ("pei", "prince edward island"),
   (" nl ", "newfoundland"), (", nl", "newfoundland"), ("nfld", "newfoundland"),
   (" nt ", "northwest territories"), (", nt", "northwest territories"),
   ("nwt", "northwest territories"),
   (" nu ", "nunavut"), (", nu", "nunavut"),
   (" yt ", "yukon"), (", yt", "yukon")]

def DL_TYPES : List (String × DocumentType × String × String) :=
  [("ontario", .ONTARIO_DRIVERS_LICENSE, "Ontario", "Ontario Driver's License"),
   ("british columbia", .BC_DRIVERS_LICENSE, "British Columbia", "BC Driver's Licence"),
   ("alberta", .ALBERTA_DRIVERS_LICENSE, "Alberta", "Alberta Driver's Licence"),
   ("quebec", .QUEBEC_DRIVERS_LICENSE, "Quebec", "Quebec Driver's Licence"),
   ("manitoba", .MANITOBA_DRIVERS_LICENSE, "Manitoba", "Manitoba Driver's Licence"),
   ("saskatchewan", .SASKATCHEWAN_DRIVERS_LICENSE, "Saskatchewan",
     "Saskatchewan Driver's Licence"),
   ("nova scotia", .NOVA_SCOTIA_DRIVERS_LICENSE, "Nova Scotia",
     "Nova Scotia Driver's Licence"),
   ("new brunswick", .NEW_BRUNSWICK_DRIVERS_LICENSE, "New Brunswick",
     "New Brunswick Driver's Licence"),
   ("prince edward island", .PEI_DRIVERS_LICENSE, "Prince Edward Island",
     "PEI Driver's Licence"),
   ("newfoundland", .NEWFOUNDLAND_DRIVERS_LICENSE, "Newfoundland and Labrador",
     "Newfoundland Driver's Licence"),
   ("northwest territories", .NWT_DRIVERS_LICENSE, "Northwest Territories",
     "NWT Driver's Licence"),
   ("nunavut", .NUNAVUT_DRIVERS_LICENSE, "Nunavut", "Nunavut Driver's Licence"),
   ("yukon", .YUKON_DRIVERS_LICENSE, "Yukon", "Yukon Driver's Licence")]

def PHOTO_ID_TYPES : List (String × DocumentType × String × String) :=
  [("ontario", .ONTARIO_PHOTO_CARD, "Ontario", "Ontario Photo Card"),
   ("british columbia", .BC_PHOTO_ID, "British Columbia", "BC Photo ID"),
   ("alberta", .ALBERTA_PHOTO_ID, "Alberta", "Alberta Photo ID")]

def US_STATE_MAPPING : List (String × String) :=
  [("california", "California"), ("texas", "Texas"), ("florida", "Florida"),
   ("new york", "New York"), ("illinois", "Illinois"), ("pennsylvania", "Pennsylvania"),
   ("ohio", "Ohio"), ("georgia", "Georgia"), ("michigan", "Michigan"),
   ("arizona", "Arizona"), ("washington", "Washington"), ("new jersey", "New Jersey"),
   ("nevada", "Nevada"), ("colorado", "Colorado"), ("oregon", "Oregon")]

def US_STATE_ABBREV : List (String × String) :=
  [(" ca ", "california"), (", ca", "california"), ("ca,", "california"),
   (" tx ", "texas"), (", tx", "texas"), ("tx,", "texas"),
   (" fl ", "florida"), (", fl", "florida"), ("fl,", "florida"),
   (" ny ", "new york"), (", ny", "new york"), ("ny,", "new york"),
   (" il ", "illinois"), (", il", "illinois"), ("il,", "illinois"),
   (" pa ", "pennsylvania"), (", pa", "pennsylvania"), ("pa,", "pennsylvania"),
   (" oh ", "ohio"), (", oh", "ohio"), ("oh,", "ohio"),
   (" ga ", "georgia"), (", ga", "georgia"), ("ga,", "georgia"),
   (" mi ", "michigan"), (", mi", "michigan"), ("mi,", "michigan"),
   (" az ", "arizona"), (", az", "arizona"), ("az,", "arizona"),
   (" wa ", "washington"), (", wa", "washington"), ("wa,", "washington"),
   (" nj ", "new jersey"), (", nj", "new jersey"), ("nj,", "new jersey"),
   (" nv ", "nevada"), (", nv", "nevada"), ("nv,", "nevada"),
   (" co ", "colorado"), (", co", "colorado"), ("co,", "colorado"),
   (" or ", "oregon"), (", or", "oregon"), ("or,", "oregon")]

def US_DL_TYPES : List (String × DocumentType × String × String) :=
  [("california", .CALIFORNIA_DRIVERS_LICENSE, "California",
     "California Driver's License"),
   ("texas", .TEXAS_DRIVERS_LICENSE, "Texas", "Texas Driver's License")]

/-- One entry of `DOC_NUMBER_FORMATS`. -/
structure DocFormatInfo where
  pattern : String → Bool
  pattern_src : String
  country : String
  state_province : Option String
  name : String

/-- `DOC_NUMBER_FORMATS` (detector lines 136-235), in source order. -/
def DOC_NUMBER_FORMATS : List (DocumentType × DocFormatInfo) :=
  [(.ONTARIO_DRIVERS_LICENSE,
    { pattern := re_ontario_opt
      pattern_src := "^[A-Z]\\d{4}-?\\d{5}-?\\d{5}$"
      country := "Canada", state_province := some "Ontario"
      name := "Ontario Driver's License" }),
   (.BC_DRIVERS_LICENSE,
    { pattern := re_bc
      pattern_src := "^(NDL:?|DL:?)?\\d{6,7}$"
      country := "Canada", state_province := some "British Columbia"
      name := "BC Driver's Licence" }),
   (.ALBERTA_DRIVERS_LICENSE,
    { pattern := re_alberta
      pattern_src := "^\\d{6}-?\\d{3}$"
      country := "Canada", state_province := some "Alberta"
      name := "Alberta Driver's Licence" }),
   (.QUEBEC_DRIVERS_LICENSE,
    { pattern := re_quebec
      pattern_src := "^[A-Z]\\d{4}-?\\d{6}-?\\d{2}$"
      country := "Canada", state_province := some "Quebec"
      name := "Quebec Driver's Licence" }),
   (.MANITOBA_DRIVERS_LICENSE,
    { pattern := re_d9
      pattern_src := "^\\d{9}$"
      country := "Canada", state_province := some "Manitoba"
      name := "Manitoba Driver's Licence" }),
   (.SASKATCHEWAN_DRIVERS_LICENSE,
    { pattern := re_d8
      pattern_src := "^\\d{8}$"
      country := "Canada", state_province := some "Saskatchewan"
      name := "Saskatchewan Driver's Licence" }),
   (.NOVA_SCOTIA_DRIVERS_LICENSE,
    { pattern := re_ns
      pattern_src := "^[A-Z]{5}\\d{9}$"
      country := "Canada", state_province := some "Nova Scotia"
      name := "Nova Scotia Driver's Licence" }),
   (.NEW_BRUNSWICK_DRIVERS_LICENSE,
    { pattern := re_d7
      pattern_src := "^\\d{7}$"
      country := "Canada", state_province := some "New Brunswick"
      name := "New Brunswick Driver's Licence" }),
   (.NEWFOUNDLAND_DRIVERS_LICENSE,
    { pattern := re_l1d9
      pattern_src := "^[A-Z]\\d{9}$"
      country := "Canada", state_province := some "Newfoundland and Labrador"
      name := "Newfoundland Driver's Licence" }),
   (.ONTARIO_HEALTH_CARD,
    { pattern := re_ohc
      pattern_src := "^\\d{10}[A-Z]{2}$"
      country := "Canada", state_province := some "Ontario"
      name := "Ontario Health Card" }),
   (.CANADIAN_PASSPORT,
    { pattern := re_l2d6
      pattern_src := "^[A-Z]{2}\\d{6}$"
      country := "Canada", state_province := none
      name := "Canadian Passport" }),
   (.CANADA_PR_CARD,
    { pattern := re_l2d6
      pattern_src := "^[A-Z]{2}\\d{6}$"
      country := "Canada", state_province := none
      name := "Canada Permanent Residence Card" }),
   (.CALIFORNIA_DRIVERS_LICENSE,
    { pattern := re_l1d7
      pattern_src := "^[A-Z]\\d{7}$"
      country := "United States", state_province := some "California"
      name := "California Driver's License" }),
   (.TEXAS_DRIVERS_LICENSE,
    { pattern := re_d8
      pattern_src := "^\\d{8}$"
      country := "United States", state_province := some "Texas"
      name := "Texas Driver's License" })]

/-- `DocumentTypeDetector._build_full_text`: lower-cased non-empty string
field values joined by spaces, in field order. -/
def build_full_text (data : Fields) : String :=
  joinSep " " ((data.filter (fun kv => !(kv.2 == ""))).map (fun kv => strLower kv.2))

/-- `DocumentTypeDetector._detect_province`: full names first (with the
accented Quebec spelling normalized), then abbreviations. -/
def detect_province (full_text_lower : String) : Option String :=
  match PROVINCE_MAPPING.find? (fun kv => strContainsB full_text_lower kv.1) with
  | some kv => if kv.1 == "québec" then some "quebec" else some kv.1
  | none =>
    (PROVINCE_ABBREV.find? (fun kv => strContainsB full_text_lower kv.1)).map (fun kv => kv.2)

/-- `DocumentTypeDetector._detect_us_state`. -/
def detect_us_state (full_text_lower : String) : Option String :=
  match US_STATE_MAPPING.find? (fun kv => strContainsB full_text_lower kv.1) with
  | some kv => some kv.1
  | none =>
    (US_STATE_ABBREV.find? (fun kv => strContainsB full_text_lower kv.1)).map (fun kv => kv.2)

/-- `any(kw in text for kw in kws)`. -/
def any_kw (kws : List String) (t : String) : Bool := kws.any (fun kw => strContainsB t kw)

/-- Python `s.replace(" ", "_")`. -/
def replaceSpaceUnderscore (s : String) : String :=
  ⟨s.data.map (fun c => if c == ' ' then '_' else c)⟩

/-- Python `str.title()` (ASCII). -/
def pyTitle (s : String) : String :=
  ⟨(s.data.foldl (fun acc c =>
      let c' := if c.isAlpha then (if acc.1 then c.toLower else c.toUpper) else c
      (c.isAlpha, c' :: acc.2)) (false, [])).2.reverse⟩

/-! The named flags computed at the top of `detect` (lines 258-305). -/

def full_text_lower_of (data : Fields) : String := strLower (build_full_text data)

def document_title_of (data : Fields) : String := strLower (fieldGet data "document_title")

def country_code_of (data : Fields) : String := strUpper (fieldGet data "country_code")

def has_passport_keyword (data : Fields) : Bool :=
  any_kw PASSPORT_KEYWORDS (full_text_lower_of data)

def has_dl_keyword (data : Fields) : Bool :=
  any_kw DL_KEYWORDS (full_text_lower_of data)

def has_health_card_keyword (data : Fields) : Bool :=
  any_kw HEALTH_CARD_KEYWORDS (full_text_lower_of data)

def has_photo_id_keyword (data : Fields) : Bool :=
  any_kw PHOTO_ID_KEYWORDS (full_text_lower_of data)

def has_pr_card_keyword (data : Fields) : Bool :=
  any_kw PR_CARD_KEYWORDS (full_text_lower_of data)

def has_permanent_keyword (data : Fields) : Bool :=
  strContainsB (full_text_lower_of data) "permanent" ||
    strContainsB (document_title_of data) "permanent"

def is_pr_card_by_title (data : Fields) : Bool :=
  strContainsB (document_title_of data) "permanent resident" ||
    strContainsB (document_title_of data) "résident permanent"

def is_passport_by_title (data : Fields) : Bool :=
  strContainsB (document_title_of data) "passport" &&
    !(strContainsB (document_title_of data) "permanent")

def is_photo_id_by_title (data : Fields) : Bool :=
  strContainsB (document_title_of data) "photo" ||
    strContainsB (document_title_of data) "identification" ||
    strContainsB (document_title_of data) "identity" ||
    strContainsB (document_title_of data) "services card" ||
    strContainsB (document_title_of data) "bcid"

def has_government_of_canada (data : Fields) : Bool :=
  strContainsB (full_text_lower_of data) "government of canada" ||
    strContainsB (full_text_lower_of data) "gouvernement du canada"

def is_canada (data : Fields) : Bool :=
  strContainsB (full_text_lower_of data) "canada" ||
    country_code_of data == "CAN" ||
    (detect_province (full_text_lower_of data)).isSome ||
    has_government_of_canada data

/-- The Stage-1a result: Canada PR card at confidence 0.9. -/
def pr_card_info : DocumentTypeInfo :=
  { document_type := DocumentType.CANADA_PR_CARD.value
    document_type_enum := some .CANADA_PR_CARD
    confidence := 90
    country := some "Canada"
    state_province := none
    document_name := "Canada Permanent Residence Card"
    detected_features := ["pr_card_keyword_found", "country: Canada"] }

def generic_photo_id_info : DocumentTypeInfo :=
  { document_type := DocumentType.GENERIC_PHOTO_ID.value
    document_type_enum := some .GENERIC_PHOTO_ID
    confidence := 70
    country := none
    state_province := none
    document_name := "Photo ID"
    detected_features := ["photo_id_keyword_found"] }

def ontario_health_card_info : DocumentTypeInfo :=
  { document_type := DocumentType.ONTARIO_HEALTH_CARD.value
    document_type_enum := some .ONTARIO_HEALTH_CARD
    confidence := 90
    country := some "Canada"
    state_province := some "Ontario"
    document_name := "Ontario Health Card"
    detected_features := ["health_card_keyword_found", "province: ontario"] }

/-- Stage-1b: photo card by detected province, else generic photo ID. -/
def photo_id_result (data : Fields) : DocumentTypeInfo :=
  match detect_province (full_text_lower_of data) with
  | some p =>
    match PHOTO_ID_TYPES.lookup p with
    | some t =>
      { document_type := t.1.value
        document_type_enum := some t.1
        confidence := 90
        country := some "Canada"
        state_province := some t.2.1
        document_name := t.2.2
        detected_features := ["photo_id_keyword_found", "province: " ++ p] }
    | none => generic_photo_id_info
  | none => generic_photo_id_info

/-- Stage-1d, US half: a specific US state licence at 0.85, or the generic
US licence at 0.8 for a detected-but-unmodelled state. -/
def dl_us_result (data : Fields) : Option DocumentTypeInfo :=
  match detect_us_state (full_text_lower_of data) with
  | some st =>
    match US_DL_TYPES.lookup st with
    | some t =>
      some { document_type := t.1.value
             document_type_enum := some t.1
             confidence := 85
             country := some "United States"
             state_province := some t.2.1
             document_name := t.2.2
             detected_features := ["dl_keyword_found", "us_state: " ++ st] }
    | none =>
      let state_name := (US_STATE_MAPPING.lookup st).getD (pyTitle st)
      some { document_type := DocumentType.US_DRIVERS_LICENSE.value
             document_type_enum := some .US_DRIVERS_LICENSE
             confidence := 80
             country := some "United States"
             state_province := some state_name
             document_name := state_name ++ " Driver's License"
             detected_features := ["dl_keyword_found", "us_state: " ++ st] }
  | none => none

/-- Stage-1d: driver's licence by Canadian province first, then by US state. -/
def dl_keyword_result (data : Fields) : Option DocumentTypeInfo :=
  match detect_province (full_text_lower_of data) with
  | some p =>
    match DL_TYPES.lookup p with
    | some t =>
      some { document_type := t.1.value
             document_type_enum := some t.1
             confidence := 85
             country := some "Canada"
             state_province := some t.2.1
             document_name := t.2.2
             detected_features := ["dl_keyword_found", "province: " ++ p] }
    | none => dl_us_result data
  | none => dl_us_result data

/-- Stage-1e: passport resolution against `DOCUMENT_PATTERNS` country codes
and `COUNTRY_CODES`; `none` when the country code is non-empty but unknown
(detection then falls through to the later stages). -/
def passport_keyword_result (data : Fields) : Option DocumentTypeInfo :=
  if !(country_code_of data == "") then
    match DOCUMENT_PATTERNS.find? (fun e =>
        match e.2.country_code with
        | some pcc => !(pcc == "") && strUpper pcc == country_code_of data
        | none => false) with
    | some e =>
      some { document_type := e.1.value
             document_type_enum := some e.1
             confidence := 90
             country := e.2.country
             state_province := none
             document_name := e.2.name
             detected_features := ["passport_keyword_found",
               "country_code: " ++ country_code_of data] }
    | none =>
      match COUNTRY_CODES.lookup (country_code_of data) with
      | some country_name =>
        some { document_type := replaceSpaceUnderscore (strLower country_name) ++ "_passport"
               document_type_enum := some .GENERIC_PASSPORT
               confidence := 85
               country := some country_name
               state_province := none
               document_name := country_name ++ " Passport"
               detected_features :=
                 ["passport_keyword_found", "country_code: " ++ country_code_of data] }
      | none => none
  else
    some { document_type := DocumentType.GENERIC_PASSPORT.value
           document_type_enum := some .GENERIC_PASSPORT
           confidence := 75
           country := none
           state_province := none
           document_name := "Passport"
           detected_features := ["passport_keyword_found", "no_country_code"] }

/-- STEP 1 of `detect` (lines 314-473): keyword + context detection, with
the source's early returns expressed as the first applicable branch. -/
def detect_keyword_stage (data : Fields) : Option DocumentTypeInfo :=
  if (has_pr_card_keyword data || has_permanent_keyword data || is_pr_card_by_title data) &&
      is_canada data then
    some pr_card_info
  else if (has_photo_id_keyword data || is_photo_id_by_title data) &&
      !(has_passport_keyword data) && !(has_dl_keyword data) then
    some (photo_id_result data)
  else if has_health_card_keyword data && !(has_passport_keyword data) &&
      (detect_province (full_text_lower_of data) == some "ontario" ||
        strContainsB (full_text_lower_of data) "ohip") then
    some ontario_health_card_info
  else
    match (if has_dl_keyword data && !(has_passport_keyword data) then
        dl_keyword_result data else none) with
    | some info => some info
    | none =>
      if has_passport_keyword data || is_passport_by_title data then
        passport_keyword_result data
      else none

/-- STEP 2 of `detect` (lines 476-494): first matching document-number
format wins at confidence 0.7. -/
def detect_doc_number_stage (data : Fields) : Option DocumentTypeInfo :=
  let document_number := fieldGet data "document_number"
  let clean_doc_number := dropSpaceHyphen (strUpper (strStrip document_number))
  if !(clean_doc_number == "") then
    (DOC_NUMBER_FORMATS.find? (fun e =>
        e.2.pattern (strUpper (strStrip document_number)) ||
          e.2.pattern clean_doc_number)).map (fun e =>
      { document_type := e.1.value
        document_type_enum := some e.1
        confidence := 70
        country := some e.2.country
        state_province := e.2.state_province
        document_name := e.2.name
        detected_features := ["document_number_format_match", "pattern: " ++ e.2.pattern_src] })
  else none

/-- `DocumentTypeDetector._calculate_match_score` (lines 592-649): country
code 0.5, number format 0.4, keywords 0.15 each capped at 0.45, Ontario
address bonus 0.15 (all in hundredths). -/
def calculate_match_score (doc_type : DocumentType) (patterns : PatternInfo)
    (document_number address full_text country_code : String) : ℤ × List String :=
  let full_text_lower := strLower full_text
  let is_passport_type := strContainsB (strLower patterns.name) "passport"
  let cc_part : ℤ × List String :=
    match patterns.country_code with
    | some pcc =>
      if !(pcc == "") && !(country_code == "") && is_passport_type then
        if strUpper country_code == strUpper pcc then
          (50, ["country_code_match: " ++ country_code])
        else (0, [])
      else (0, [])
    | none => (0, [])
  let fmt_part : ℤ × List String :=
    if !(document_number == "") then
      if patterns.license_format (strUpper (strStrip document_number)) then
        (40, ["document_number_format_match"])
      else (0, [])
    else (0, [])
  let matched_keywords :=
    patterns.keywords.filter (fun kw => strContainsB full_text_lower (strLower kw))
  let kw_part : ℤ × List String :=
    if !matched_keywords.isEmpty then
      (min (matched_keywords.length * 15) 45,
        ["keywords_found: " ++ joinSep ", " matched_keywords])
    else (0, [])
  let ontario_part : ℤ × List String :=
    if doc_type = DocumentType.ONTARIO_DRIVERS_LICENSE then
      match (["ontario", " on ", ", on", "on,", "toronto", "ottawa",
          "mississauga"] : List String).find? (fun ind =>
            strContainsB (strLower address) (strLower ind) ||
              strContainsB full_text_lower (strLower ind)) with
      | some ind => (15, ["ontario_address_indicator: " ++ ind])
      | none => (0, [])
    else (0, [])
  (cc_part.1 + fmt_part.1 + kw_part.1 + ontario_part.1,
    cc_part.2 ++ fmt_part.2 ++ kw_part.2 ++ ontario_part.2)

def unknown_info : DocumentTypeInfo :=
  { document_type := DocumentType.UNKNOWN.value
    document_type_enum := some .UNKNOWN
    confidence := 0
    country := none
    state_province := none
    document_name := "Unknown Document"
    detected_features := [] }

/-- The last-resort passport fallback inside STEP 3 (lines 524-538). -/
def detect_pattern_fallback (data : Fields) : DocumentTypeInfo :=
  let country_code := country_code_of data
  if has_passport_keyword data && !(country_code == "") then
    match COUNTRY_CODES.lookup (strUpper country_code) with
    | some country_name =>
      { document_type := replaceSpaceUnderscore (strLower country_name) ++ "_passport"
        document_type_enum := some .GENERIC_PASSPORT
        confidence := 60
        country := some country_name
        state_province := none
        document_name := country_name ++ " Passport"
        detected_features :=
          ["passport_keyword_found", "country_code: " ++ strUpper country_code] }
    | none => unknown_info
  else unknown_info

/-- STEP 3 of `detect` (lines 496-554): weighted pattern scoring with a
strict-improvement fold, the passport last resort, and UNKNOWN at 0. -/
def detect_pattern_stage (data : Fields) : DocumentTypeInfo :=
  let document_number := fieldGet data "document_number"
  let address := fieldGet data "address"
  let country_code := country_code_of data
  let full_text := build_full_text data
  let best := DOCUMENT_PATTERNS.foldl (fun acc e =>
    let sf := calculate_match_score e.1 e.2 document_number address full_text country_code
    if acc.1 < sf.1 then
      (sf.1, some { document_type := e.1.value
                    document_type_enum := some e.1
                    confidence := sf.1
                    country := e.2.country
                    state_province := e.2.state_province
                    document_name := e.2.name
                    detected_features := sf.2 })
    else acc) ((0 : ℤ), (none : Option DocumentTypeInfo))
  match best.2 with
  | some info => if best.1 < 30 then detect_pattern_fallback data else info
  | none => detect_pattern_fallback data

/-- `DocumentTypeDetector.detect` (lines 237-554): the three-stage cascade. -/
def DocumentTypeDetector.detect (data : Fields) : DocumentTypeInfo :=
  match detect_keyword_stage data with
  | some info => info
  | none =>
    match detect_doc_number_stage data with
    | some info => info
    | none => detect_pattern_stage data

set_option maxRecDepth 8192

/-! ## C7: PR-card priority in Stage 1 -/

/-- C7.  Any input carrying a PR-card keyword (or the literal word
"permanent", or a PR `document_title`) together with Canada context (the
word "canada", country code CAN, a detected province, or a
Government-of-Canada header) is detected as CANADA_PR_CARD at confidence
0.9 — Stage 1a precedes the passport branch, so passport keywords in the
same input cannot override it (detector lines 319-331). -/
theorem pr_card_keyword_priority (data : Fields)
    (hpr : has_pr_card_keyword data = true ∨ has_permanent_keyword data = true ∨
      is_pr_card_by_title data = true)
    (hca : strContainsB (full_text_lower_of data) "canada" = true ∨
      country_code_of data = "CAN" ∨
      (detect_province (full_text_lower_of data)).isSome = true ∨
      has_government_of_canada data = true) :
    DocumentTypeDetector.detect data = pr_card_info ∧
    (DocumentTypeDetector.detect data).document_type_enum =
      some DocumentType.CANADA_PR_CARD ∧
    (DocumentTypeDetector.detect data).confidence = 90 := by
  have hca' : is_canada data = true := by
    unfold is_canada
    rcases hca with h | h | h | h
    · simp [h]
    · simp [h]
    · simp [h]
    · simp [h]
  have hpr' : (has_pr_card_keyword data || has_permanent_keyword data ||
      is_pr_card_by_title data) = true := by
    rcases hpr with h | h | h <;> simp [h]
  have hstage : detect_keyword_stage data = some pr_card_info := by
    unfold detect_keyword_stage
    rw [hpr', hca']
    rfl
  have hdet : DocumentTypeDetector.detect data = pr_card_info := by
    unfold DocumentTypeDetector.detect
    rw [hstage]
  exact ⟨hdet, by rw [hdet]; rfl, by rw [hdet]; rfl⟩

/-- The PR-card witness input: PR title and Canadian country code together
with a passport keyword in another field. -/
def prCardFields : Fields :=
  [("document_number", "RA123456"), ("document_title", "Permanent Resident Card"),
   ("country_code", "CAN"), ("nationality", "indian passport")]

/-- Concrete instantiation of `pr_card_keyword_priority`, with a passport
keyword also present in the fields. -/
theorem pr_card_keyword_priority_witness :
    DocumentTypeDetector.detect prCardFields = pr_card_info ∧
    has_passport_keyword prCardFields = true :=
  ⟨(pr_card_keyword_priority prCardFields (Or.inl (by decide))
      (Or.inr (Or.inl (by decide)))).1, by decide⟩

/-! ## C6: detector confidence can exceed 1 (code bug) -/

/-- The input exhibiting the overflow: country-code match (0.5) + format
match (0.4) + three matched keywords (0.45) for the Australia passport
pattern in Stage 3. -/
def confidenceBugFields : Fields :=
  [("document_number", "AB1234567"), ("nationality", "australian"),
   ("country_code", "AUS")]

/-- C6 exhibit.  `DocumentTypeInfo.confidence` is documented as "0-1"
(`document_types.py`, line 57) and the claim bounds it by [0,1], but
Stage-3 scoring returns 0.5 + 0.4 + 0.45 = 1.35 for this input: the code
violates its own documented invariant.  (Confidence is in hundredths:
135 ↦ 1.35.) -/
theorem detect_confidence_exceeds_one :
    (DocumentTypeDetector.detect confidenceBugFields).confidence = 135 ∧
    ¬((DocumentTypeDetector.detect confidenceBugFields).confidence ≤ 100) ∧
    ¬(((135 : ℚ) / 100) ≤ 1) := by
  refine ⟨by decide, by decide, by norm_num⟩

/-! ## C8: Scenario A -/

/-- Scenario A's extracted fields. -/
def scenarioAFields : Fields :=
  [("document_number", "S1234-56789-60122"), ("full_name", "SMITH, JOHN"),
   ("date_of_birth", "1996-01-22"), ("expiry_date", "1999-01-22")]

/-- C8 counterexample: Scenario A's fields contain no driver's-licence
keyword, so Stage 1 finds nothing; Stage 2's document-number fallback
detects the Ontario DL at confidence 0.7, below the claimed 0.85. -/
theorem scenario_a_confidence_below_claim :
    (DocumentTypeDetector.detect scenarioAFields).document_type_enum =
      some DocumentType.ONTARIO_DRIVERS_LICENSE ∧
    (DocumentTypeDetector.detect scenarioAFields).confidence = 70 ∧
    ¬(85 ≤ (DocumentTypeDetector.detect scenarioAFields).confidence) := by
  refine ⟨by decide, by decide, by decide⟩

/-- C8 (amended).  Scenario A is detected as an Ontario driver's licence at
confidence 0.7 (the Stage-2 document-number-format fallback, detector lines
476-494), and the Ontario DL validator PASSes on the same fields whenever
the holder's computed age at validation time is at least 18 (it is 30 in
2026) and the external verification flag is off. -/
theorem scenario_a_detection_and_validation (today : YMD)
    (hage : 18 ≤ computeAge today ⟨1996, 1, 22⟩) :
    (DocumentTypeDetector.detect scenarioAFields).document_type_enum =
      some DocumentType.ONTARIO_DRIVERS_LICENSE ∧
    (DocumentTypeDetector.detect scenarioAFields).confidence = 70 ∧
    (OntarioDriversLicenseValidator.validate today none scenarioAFields).status =
      .passed := by
  refine ⟨by decide, by decide, ?_⟩
  have hp : parse_date "1996-01-22" = some ⟨1996, 1, 22⟩ := by decide
  have hc3 : odl_age_check today "1996-01-22" = ([], []) := by
    unfold odl_age_check
    rw [show (("1996-01-22" : String) == "") = false from by decide, hp]
    simp only [Bool.not_false, if_true]
    rw [if_neg (by omega), if_neg (by omega)]
  have e1 : odl_format_check (fieldGet scenarioAFields "document_number")
      (strUpper (strStrip (fieldGet scenarioAFields "document_number"))) = ([], []) := by
    decide
  have e2 : odl_letter_check
      (strUpper (strStrip (fieldGet scenarioAFields "document_number")))
      (extract_last_name scenarioAFields).1 (extract_last_name scenarioAFields).2 =
      ([], []) := by
    decide
  have e3 : odl_age_check today (fieldGet scenarioAFields "date_of_birth") = ([], []) := by
    rw [show fieldGet scenarioAFields "date_of_birth" = "1996-01-22" from by decide]
    exact hc3
  have e4 : odl_birthday_check (fieldGet scenarioAFields "date_of_birth")
      (fieldGet scenarioAFields "expiry_date") = [] := by decide
  have e5 : odl_validity_check (fieldGet scenarioAFields "issue_date")
      (fieldGet scenarioAFields "expiry_date") = [] := by decide
  have e6 : odl_dob_encoding_check
      (strUpper (strStrip (fieldGet scenarioAFields "document_number")))
      (fieldGet scenarioAFields "date_of_birth")
      (fieldGet scenarioAFields "gender") = ([], []) := by decide
  simp only [OntarioDriversLicenseValidator.validate, e1, e2, e3, e4, e5, e6]
  rfl

/-- Concrete instantiation of `scenario_a_detection_and_validation` at
`today = 2026-10-12` (age 30). -/
theorem scenario_a_detection_and_validation_witness :
    (DocumentTypeDetector.detect scenarioAFields).confidence = 70 ∧
    (OntarioDriversLicenseValidator.validate ⟨2026, 10, 12⟩ none
      scenarioAFields).status = .passed := by
  have h := scenario_a_detection_and_validation ⟨2026, 10, 12⟩ (by decide)
  exact ⟨h.2.1, h.2.2⟩

/-! ## C10: passport keyword with an unknown country code -/

theorem photo_id_result_confidence (g : Fields) :
    (photo_id_result g).confidence = 90 ∨ (photo_id_result g).confidence = 70 := by
  unfold photo_id_result
  split
  · split
    · left; rfl
    · right; rfl
  · right; rfl

theorem dl_us_result_confidence (g : Fields) (info : DocumentTypeInfo)
    (h : dl_us_result g = some info) :
    info.confidence = 85 ∨ info.confidence = 80 := by
  unfold dl_us_result at h
  split at h
  · split at h
    · left
      injection h with h'
      rw [← h']
    · right
      injection h with h'
      rw [← h']
  · exact Option.noConfusion h

theorem dl_keyword_result_confidence (g : Fields) (info : DocumentTypeInfo)
    (h : dl_keyword_result g = some info) :
    info.confidence = 85 ∨ info.confidence = 80 := by
  unfold dl_keyword_result at h
  split at h
  · split at h
    · left
      injection h with h'
      rw [← h']
    · exact dl_us_result_confidence g info h
  · exact dl_us_result_confidence g info h

theorem passport_keyword_result_75 (g : Fields) (i : DocumentTypeInfo)
    (h : passport_keyword_result g = some i) (hconf : i.confidence = 75) :
    country_code_of g = "" := by
  unfold passport_keyword_result at h
  split at h
  · split at h
    · injection h with h'
      rw [← h'] at hconf
      simp at hconf
    · split at h
      · injection h with h'
        rw [← h'] at hconf
        simp at hconf
      · exact Option.noConfusion h
  · next hcond =>
    cases hb : (country_code_of g == "") with
    | true => exact beq_iff_eq.mp hb
    | false =>
      rw [hb] at hcond
      simp at hcond

/-- C10.  With a passport keyword present and a non-empty `country_code`
that matches no `DOCUMENT_PATTERNS` entry and is not in `COUNTRY_CODES`
(and no PR-card branch firing), the keyword stage of `detect` produces no
result at all — neither the 0.85 generic passport nor the 0.75
no-country-code passport — and detection falls through to the
document-number-format and weighted-pattern stages; the 0.75 result can
only ever arise when `country_code` is empty (detector lines 424-473 and
523-549). -/
theorem passport_unknown_country_falls_through (data : Fields)
    (hkw : has_passport_keyword data = true)
    (hcc : country_code_of data ≠ "")
    (hnopat : DOCUMENT_PATTERNS.find? (fun e =>
        match e.2.country_code with
        | some pcc => !(pcc == "") && strUpper pcc == country_code_of data
        | none => false) = none)
    (hnocc : COUNTRY_CODES.lookup (country_code_of data) = none)
    (hnopr : ((has_pr_card_keyword data || has_permanent_keyword data ||
      is_pr_card_by_title data) && is_canada data) = false) :
    detect_keyword_stage data = none ∧
    DocumentTypeDetector.detect data =
      (match detect_doc_number_stage data with
        | some info => info
        | none => detect_pattern_stage data) ∧
    ∀ g : Fields, ∀ i : DocumentTypeInfo,
      detect_keyword_stage g = some i → i.confidence = 75 →
        country_code_of g = "" := by
  have hcc' : (country_code_of data == "") = false := beq_eq_false_iff_ne.mpr hcc
  have hstage : detect_keyword_stage data = none := by
    unfold detect_keyword_stage
    simp [hnopr, hkw, passport_keyword_result, hcc', hnopat, hnocc]
  refine ⟨hstage, ?_, ?_⟩
  · unfold DocumentTypeDetector.detect
    rw [hstage]
  · intro g i hg hconf
    unfold detect_keyword_stage at hg
    split at hg
    · injection hg with h
      rw [← h] at hconf
      exact absurd hconf (by decide)
    · split at hg
      · injection hg with h
        rw [← h] at hconf
        rcases photo_id_result_confidence g with h9 | h7
        · rw [hconf] at h9
          exact absurd h9 (by decide)
        · rw [hconf] at h7
          exact absurd h7 (by decide)
      · split at hg
        · injection hg with h
          rw [← h] at hconf
          exact absurd hconf (by decide)
        · split at hg
          · next info0 heq =>
            injection hg with h
            rw [← h] at hconf
            split at heq
            · rcases dl_keyword_result_confidence g info0 heq with h8 | h0
              · rw [hconf] at h8
                exact absurd h8 (by decide)
              · rw [hconf] at h0
                exact absurd h0 (by decide)
            · exact Option.noConfusion heq
          · split at hg
            · exact passport_keyword_result_75 g i hg hconf
            · exact Option.noConfusion hg

/-- The C10 witness input: a passport title with the unassigned country
code `XXX`. -/
def passportXXXFields : Fields :=
  [("document_title", "Passport"), ("country_code", "XXX")]

/-- Concrete instantiation of `passport_unknown_country_falls_through`. -/
theorem passport_unknown_country_falls_through_witness :
    detect_keyword_stage passportXXXFields = none :=
  (passport_unknown_country_falls_through passportXXXFields (by decide) (by decide)
    (by rfl) (by decide) (by decide)).1

/-! ## The fake/specimen document detector
(`app/services/fake_document_detector.py`)

Scores are in hundredths; ratio thresholds are multiplied out to stay in
exact integer arithmetic.
-/

def SPECIMEN_KEYWORDS : List String :=
  ["specimen", "sample", "void", "not valid", "invalid",
   "for display only", "display purposes", "example",
   "test document", "test card", "demo", "demonstration",
   "facsimile", "replica", "copy", "duplicate",
   "training", "practice", "mock", "fake",
   "not for identification", "no value", "cancelled",
   "spécimen", "échantillon", "annulé",
   "muestra", "anulado"]

def FAKE_NAMES : List (String × String) :=
  [("john", "doe"), ("jane", "doe"), ("john", "smith"), ("jane", "smith"),
   ("test", "user"), ("sample", "person"), ("example", "name"),
   ("first", "last"), ("firstname", "lastname"),
   ("any", "body"), ("some", "one"), ("no", "name"),
   ("john", "q"), ("john", "public"), ("joe", "bloggs"),
   ("richard", "roe"), ("baby", "doe"),
   ("james", "public"), ("jane", "public"),
   ("james", "quintin"), ("quintin", "public"),
   ("anita", "walker"), ("anita", "jean"), ("jean", "walker"),
   ("your", "name"), ("full", "name"), ("given", "name"),
   ("name", "here"), ("insert", "name"),
   ("jean", "dupont"), ("marie", "dupont"),
   ("pierre", "martin"), ("paul", "martin"),
   ("jan", "jansen"), ("max", "mustermann"),
   ("ivan", "ivanov"), ("juan", "garcia")]

def FAKE_SINGLE_NAMES : List String :=
  ["specimen", "sample", "test", "demo", "void",
   "xxxxx", "nnnnn", "aaaaa", "zzzzz",
   "abcde", "qwerty", "asdfg",
   "public", "person", "citizen", "resident",
   "anybody", "someone", "noname", "anonymous"]

/-- `p{lo,}$`: at least `lo` characters, all of class `p`. -/
def tailClassMin (p : Char → Bool) (lo : ℕ) (cs : List Char) : Bool :=
  cs.all p && decide (lo ≤ cs.length)

/-- `^[A-Z]0{5,}$` -/
def re_letter_zeros (s : String) : Bool :=
  match s.data with
  | c :: rest => c.isUpper && tailClassMin (· == '0') 5 rest
  | [] => false

/-- `^SAMPLE\d*$` / `^TEST\d*$` / `^SPEC\d*$` -/
def re_word_digits (w : String) (s : String) : Bool :=
  isPrefB w.data s.data && (s.data.drop w.data.length).all Char.isDigit

/-- `FAKE_DOC_NUMBER_PATTERNS` (fake detector lines 73-87), one matcher per
regex, in source order (the input is already upper-cased, so
`re.IGNORECASE` is immaterial). -/
def FAKE_DOC_NUMBER_PATTERNS : List (String → Bool) :=
  [fun s => tailClassMin (· == '0') 5 s.data,
   fun s => tailClassMin (· == '1') 5 s.data,
   fun s => tailClassMin (· == '9') 5 s.data,
   fun s => tailClassMin (· == 'X') 3 s.data,
   re_letter_zeros,
   fun s => (["12345", "123456", "1234567", "12345678", "123456789"] : List String).contains s,
   fun s => (["11111", "22222", "33333", "44444", "55555", "66666", "77777",
     "88888", "99999"] : List String).contains s,
   fun s => (["AB123456", "CD123456", "XY123456"] : List String).contains s,
   fun s => (["A1234567", "B1234567", "C1234567"] : List String).contains s,
   fun s => (["AA000000", "BB000000", "XX000000"] : List String).contains s,
   re_word_digits "SAMPLE",
   re_word_digits "TEST",
   re_word_digits "SPEC"]

def KNOWN_SPECIMEN_DOC_NUMBERS : List String :=
  ["AB123456", "CD123456", "XY123456",
   "A1234567", "B1234567", "L1234567",
   "123456789", "000000000", "999999999",
   "1234567890",
   "5584486674",
   "S1234567", "P1234567", "T1234567",
   "SPECIMEN", "SAMPLE", "TEST"]

def SUSPICIOUS_DATES : List String :=
  ["1900-01-01", "1970-01-01", "2000-01-01", "2020-01-01",
   "1111-11-11", "2222-02-22", "1234-12-34",
   "0001-01-01", "9999-12-31"]

def SUSPICIOUS_BIRTH_YEARS : List ℕ := [1900, 1901, 1911]

def FAKE_ADDRESS_PATTERNS : List String :=
  ["123 main", "123 fake", "123 test", "123 sample",
   "456 main", "789 main", "100 main",
   "1234 main", "12345 main",
   "123 street", "123 avenue", "123 road",
   "fake street", "test street", "sample street",
   "anywhere", "somewhere", "nowhere", "anytown",
   "springfield",
   "123 sesame"]

/-- `FakeDocumentDetector._build_full_text`: raw text (when given) followed
by the non-empty field values, space-joined (not lower-cased here). -/
def fake_build_full_text (extracted_data : Fields) (raw_text : String) : String :=
  joinSep " " ((if raw_text == "" then [] else [raw_text]) ++
    (extracted_data.filter (fun kv => !(kv.2 == ""))).map (fun kv => kv.2))

/-- `_check_specimen_keywords` (lines 210-220). -/
def check_specimen_keywords (text_lower : String) : ℤ × List String :=
  let found := SPECIMEN_KEYWORDS.filter (fun kw => strContainsB text_lower kw)
  if !found.isEmpty then
    (min (found.length * 50) 100, ["Specimen keyword found: " ++ joinSep ", " found])
  else (0, [])

/-- Number of distinct characters (`len(set(s))`). -/
def distinctCount (cs : List Char) : ℕ :=
  (cs.foldl (fun acc c => if acc.contains c then acc else c :: acc) []).length

/-- The repeated-character heuristic on one name (4+ characters, at most 2
distinct). -/
def repeated_char_name (name_clean : List Char) : Bool :=
  !name_clean.isEmpty && decide (4 ≤ name_clean.length) &&
    decide (distinctCount name_clean ≤ 2)

/-- `_check_fake_names` (lines 223-264).  The name-pair list is compared
against `first_name`/`last_name` only; `full_name` is consulted only for
the single-token indicators. -/
def check_fake_names (extracted_data : Fields) : ℤ × List String :=
  let first_name := strStrip (strLower (fieldGet extracted_data "first_name"))
  let last_name := strStrip (strLower (fieldGet extracted_data "last_name"))
  let full_name := strStrip (strLower (fieldGet extracted_data "full_name"))
  let pair_part : ℤ × List String :=
    match FAKE_NAMES.find? (fun p =>
        (first_name == p.1 && last_name == p.2) ||
          (strContainsB first_name p.1 && strContainsB last_name p.2)) with
    | some p =>
      if first_name == p.1 && last_name == p.2 then
        (100, ["Known fake name: " ++ pyTitle p.1 ++ " " ++ pyTitle p.2])
      else
        (70, ["Suspicious name pattern: contains '" ++ p.1 ++ "' and '" ++ p.2 ++ "'"])
    | none => (0, [])
  let single_part : ℤ × List String :=
    match FAKE_SINGLE_NAMES.find? (fun fs =>
        strContainsB first_name fs || strContainsB last_name fs ||
          strContainsB full_name fs) with
    | some fs => (80, ["Fake name indicator: '" ++ fs ++ "'"])
    | none => (0, [])
  let first_clean := first_name.data.filter (fun c => !(c == ' '))
  let rep_first : ℤ × List String :=
    if repeated_char_name first_clean then
      (50, ["Suspicious first name: '" ++ first_name ++ "' (repeated characters)"])
    else (0, [])
  let last_clean := last_name.data.filter (fun c => !(c == ' '))
  let rep_last : ℤ × List String :=
    if repeated_char_name last_clean then
      (50, ["Suspicious last name: '" ++ last_name ++ "' (repeated characters)"])
    else (0, [])
  (pair_part.1 + single_part.1 + rep_first.1 + rep_last.1,
    pair_part.2 ++ single_part.2 ++ rep_first.2 ++ rep_last.2)

/-- Adjacent-pair count over the digit values. -/
def countAdjacent (p : ℕ → ℕ → Bool) (l : List ℕ) : ℕ :=
  (l.zip l.tail).countP (fun q => p q.1 q.2)

/-- `_check_fake_document_number` (lines 267-314). -/
def check_fake_document_number (extracted_data : Fields) : ℤ × List String :=
  let doc_number := strStrip (strUpper (fieldGet extracted_data "document_number"))
  let doc_number_clean := dropSpaceHyphen doc_number
  if doc_number_clean == "" then (0, [])
  else
    let known_part : ℤ × List String :=
      if KNOWN_SPECIMEN_DOC_NUMBERS.contains doc_number_clean then
        (100, ["Known specimen document number: " ++ doc_number])
      else (0, [])
    let pattern_part : ℤ × List String :=
      if FAKE_DOC_NUMBER_PATTERNS.any (fun pat => pat doc_number_clean) then
        (80, ["Suspicious document number pattern: " ++ doc_number])
      else (0, [])
    let seq_part : ℤ × List String :=
      if pyIsDigitStr doc_number_clean && decide (5 ≤ doc_number_clean.data.length) then
        let vals := doc_number_clean.data.map (fun c => c.toNat - '0'.toNat)
        let sequential_count := countAdjacent (fun a b => b == a + 1) vals
        let reverse_sequential_count := countAdjacent (fun a b => b + 1 == a) vals
        let total_transitions := doc_number_clean.data.length - 1
        let maxc := max sequential_count reverse_sequential_count
        if 0 < total_transitions then
          if maxc == total_transitions then
            (90, ["Sequential document number: " ++ doc_number])
          else if 7 * total_transitions ≤ 10 * maxc then
            (70, ["Nearly sequential document number: " ++ doc_number])
          else if total_transitions ≤ 2 * maxc then
            (50, ["Partially sequential document number: " ++ doc_number])
          else (0, [])
        else (0, [])
      else (0, [])
    (known_part.1 + pattern_part.1 + seq_part.1,
      known_part.2 ++ pattern_part.2 ++ seq_part.2)

/-- The year `int(...)` extraction of `_check_suspicious_dates`. -/
def parse_year_of (date_str : String) : Option ℕ :=
  if strContainsB date_str "-" then
    pyParseNat ⟨(splitOnCh '-' date_str.data).headD []⟩
  else if strContainsB date_str "/" then
    let parts := splitOnCh '/' date_str.data
    let lastPart := parts.getLastD []
    if lastPart.length == 4 then pyParseNat ⟨lastPart⟩
    else pyParseNat ⟨parts.headD []⟩
  else none

/-- One date field of `_check_suspicious_dates` (lines 317-361). -/
def fake_date_field_score (extracted_data : Fields) (field : String) :
    ℤ × List String :=
  let v := fieldGet extracted_data field
  if v == "" then (0, [])
  else
    let date_str := strStrip v
    if SUSPICIOUS_DATES.contains date_str then
      (60, ["Suspicious " ++ field ++ ": " ++ date_str])
    else if field == "date_of_birth" then
      match parse_year_of date_str with
      | some year =>
        let s1 : ℤ × List String :=
          if SUSPICIOUS_BIRTH_YEARS.contains year then
            (40, ["Suspicious birth year: " ++ toString year])
          else (0, [])
        let s2 : ℤ × List String :=
          if year < 1920 then (50, ["Unrealistic birth year: " ++ toString year])
          else (0, [])
        (s1.1 + s2.1, s1.2 ++ s2.2)
      | none => (0, [])
    else (0, [])

/-- `_check_suspicious_dates` over its three date fields, in order. -/
def check_suspicious_dates (extracted_data : Fields) : ℤ × List String :=
  let d1 := fake_date_field_score extracted_data "date_of_birth"
  let d2 := fake_date_field_score extracted_data "issue_date"
  let d3 := fake_date_field_score extracted_data "expiry_date"
  (d1.1 + d2.1 + d3.1, d1.2 ++ d2.2 ++ d3.2)

/-- `_check_mrz_anomalies` (lines 364-391).  Line 381 of the source is the
chained comparison `"<<<…" in mrz.replace(…) == ""`, which Python reads as
`("<<<…" in replaced) and (replaced == "")` — a condition that can never
hold; it is embedded exactly as written. -/
def check_mrz_anomalies (extracted_data : Fields) : ℤ × List String :=
  let mrz := fieldGet extracted_data "mrz"
  if mrz == "" then (0, [])
  else
    let mrz_upper := strUpper mrz
    let s1 : ℤ × List String :=
      if strContainsB mrz_upper "SPECIMEN" || strContainsB mrz_upper "SAMPLE" then
        (100, ["MRZ contains SPECIMEN/SAMPLE text"])
      else (0, [])
    let replaced : String :=
      ⟨mrz_upper.data.filter (fun c => !(c == '<' || c == '>'))⟩
    let s2 : ℤ × List String :=
      if strContainsB replaced "<<<<<<<<<<<" && replaced == "" then
        (80, ["MRZ contains only filler characters"])
      else (0, [])
    let s3 : ℤ × List String :=
      if strContainsB mrz_upper "DOEDOE" || strContainsB mrz_upper "JOHNJOHN" then
        (70, ["MRZ contains repeated name patterns"])
      else (0, [])
    (s1.1 + s2.1 + s3.1, s1.2 ++ s2.2 ++ s3.2)

/-- `_check_fake_address` (lines 393-410). -/
def check_fake_address (extracted_data : Fields) : ℤ × List String :=
  let address := strStrip (strLower (fieldGet extracted_data "address"))
  if address == "" then (0, [])
  else
    match FAKE_ADDRESS_PATTERNS.find? (fun fa => strContainsB address fa) with
    | some fa => (80, ["Fake address pattern: '" ++ fa ++ "'"])
    | none => (0, [])

/-- `FakeDocumentResult`; `confidence` in hundredths (already exact at two
decimals, so `round(confidence, 2)` is the identity). -/
structure FakeDocumentResult where
  is_fake : Bool
  confidence : ℤ
  reasons : List String
  checks_performed : List String
deriving DecidableEq, Repr

/-- `FakeDocumentDetector.detect` (lines 122-198): six checks summed, then
`confidence = min(total/2, 1.0)` and
`is_fake = confidence ≥ 0.4 or total ≥ 0.8`. -/
def FakeDocumentDetector.detect (extracted_data : Fields) (raw_text : String) :
    FakeDocumentResult :=
  let full_text := fake_build_full_text extracted_data raw_text
  let full_text_lower := strLower full_text
  let c1 := check_specimen_keywords full_text_lower
  let c2 := check_fake_names extracted_data
  let c3 := check_fake_document_number extracted_data
  let c4 := check_suspicious_dates extracted_data
  let c5 := check_mrz_anomalies extracted_data
  let c6 := check_fake_address extracted_data
  let total_score := c1.1 + c2.1 + c3.1 + c4.1 + c5.1 + c6.1
  let reasons := c1.2 ++ c2.2 ++ c3.2 ++ c4.2 ++ c5.2 ++ c6.2
  let confidence := min (total_score / 2) 100
  let is_fake := decide (40 ≤ confidence) || decide (80 ≤ total_score)
  { is_fake := is_fake
    confidence := confidence
    reasons := reasons
    checks_performed := ["specimen_keywords", "fake_names", "fake_document_numbers",
      "suspicious_dates", "mrz_anomalies", "fake_addresses"] }

/-! ## C9: Scenario C -/

/-- Scenario C's extracted fields. -/
def scenarioCFields : Fields :=
  [("document_number", ""), ("full_name", "JOHN DOE"), ("address", "123 Main Street")]

/-- C9 counterexample: the detector flags Scenario C, but its only reason is
the fake-address match — no known-fake-name reason is produced, because the
name-pair list is only compared against `first_name`/`last_name`, which are
absent here, and "doe" is not a single-token indicator. -/
theorem scenario_c_no_fake_name_reason :
    (FakeDocumentDetector.detect scenarioCFields "").is_fake = true ∧
    (FakeDocumentDetector.detect scenarioCFields "").reasons =
      ["Fake address pattern: '123 main'"] ∧
    ¬ ∃ r ∈ (FakeDocumentDetector.detect scenarioCFields "").reasons,
        strContainsB r "Known fake name" = true := by
  refine ⟨by decide, by decide, by decide⟩

/-- C9 (amended).  On Scenario C the fake-document detector returns
`is_fake = true` with confidence 0.4 and a fake-address reason; it produces
no fake-name reason of any kind, since `full_name` is never checked against
the name-pair list. -/
theorem scenario_c_fake_by_address :
    (FakeDocumentDetector.detect scenarioCFields "").is_fake = true ∧
    "Fake address pattern: '123 main'" ∈
      (FakeDocumentDetector.detect scenarioCFields "").reasons ∧
    (FakeDocumentDetector.detect scenarioCFields "").confidence = 40 ∧
    (check_fake_names scenarioCFields).2 = [] := by
  refine ⟨by decide, by decide, by decide, by decide⟩
